import Mathlib

/-!
Verification of the Venus (virtio-gpu Vulkan) transport and synchronization
layer, shallowly embedded from `src/virtio/vulkan/vn_device.c`.

The embedding models:
* the roundtrip barrier's wraparound-safe sequence comparison
  (`vn_instance_wait_roundtrip`),
* the reply-buffer growth logic (`vn_instance_grow_reply_bo_locked`,
  `vn_instance_get_reply_bo_locked`),
* the ring submission path (`vn_instance_ring_submit_locked`,
  `vn_instance_submit_command`),
* the fence/semaphore payload state machine (permanent/temporary slots), and
* the queue submission batcher (`vn_QueueSubmit` / `vn_QueueBindSparse`).

Machine integers are modelled as `Nat` with explicit `% 2^32` / `% 2^64`
where overflow matters.  Fallible renderer operations (allocation, mapping,
export) are modelled by explicit boolean oracles; C `assert`s compile out in
release builds, so assertion-guarded code is modelled by its NDEBUG
behaviour, and `unreachable()` defaults are modelled as `Option.none`.
-/

/-- Vulkan result codes used by the modelled code paths. -/
inductive VkResult where
  | success
  | errorOutOfHostMemory
  | errorDeviceLost
  | errorTooManyObjects
  | notReady
deriving DecidableEq, Repr

/-! ## Roundtrip barrier (`vn_instance_wait_roundtrip`, vn_device.c:219-232)

The renderer-written `extra` counter and the roundtrip seqno are `uint32_t`;
all arithmetic is modulo `2^32`. -/

/-- `uint32_t` subtraction, `a - b` modulo `2^32` (inputs are below `2^32`). -/
def sub32 (a b : Nat) : Nat :=
  (a + 4294967296 - b) % 4294967296

/-- Loop-exit condition of `vn_instance_wait_roundtrip`
(`cur >= roundtrip_seqno || roundtrip_seqno - cur >= INT32_MAX`),
with `INT32_MAX = 2147483647`. -/
def vn_roundtrip_exit_cond (cur seqno : Nat) : Bool :=
  decide (seqno ≤ cur) || decide (2147483647 ≤ sub32 seqno cur)

/-- The spec's wraparound predicate for "`v` at or after `seqno`":
`v == seqno || (v - seqno) < INT32_MAX` in `uint32_t` arithmetic. -/
def spec_at_or_after (v seqno : Nat) : Bool :=
  decide (v = seqno) || decide (sub32 v seqno < 2147483647)

/-- The polling loop of `vn_instance_wait_roundtrip` over a stream of
acquire-ordered observations of the ring's `extra` counter: it returns the
first observed value satisfying the exit condition (and spins forever,
modelled as `none`, if no observation satisfies it). -/
def vn_instance_wait_roundtrip_loop (obs : List Nat) (seqno : Nat) : Option Nat :=
  match obs with
  | [] => none
  | v :: rest =>
    if vn_roundtrip_exit_cond v seqno then some v
    else vn_instance_wait_roundtrip_loop rest seqno

theorem vn_instance_wait_roundtrip_loop_exit (obs : List Nat) (seqno v : Nat)
    (h : vn_instance_wait_roundtrip_loop obs seqno = some v) :
    vn_roundtrip_exit_cond v seqno = true := by
  induction obs with
  | nil => simp [vn_instance_wait_roundtrip_loop] at h
  | cons a rest ih =>
    by_cases ha : vn_roundtrip_exit_cond a seqno = true
    · simp [vn_instance_wait_roundtrip_loop, ha] at h
      subst h; exact ha
    · simp only [vn_instance_wait_roundtrip_loop, Bool.not_eq_true] at ha ⊢
      rw [vn_instance_wait_roundtrip_loop, ha] at h
      simp at h
      exact ih h

/-- Claim C3 as stated is false: the code's loop-exit condition is not
equivalent to the spec's wraparound predicate.  At `cur = 2^31 - 1`,
`seqno = 0` the loop exits (`cur >= seqno`) but the spec predicate
`v == seqno || (v - seqno) mod 2^32 < INT32_MAX` is false. -/
theorem vn_roundtrip_exit_cond_not_equiv_spec :
    vn_roundtrip_exit_cond 2147483647 0 = true ∧
    spec_at_or_after 2147483647 0 = false := by
  constructor <;> decide

/-- Claim C3 (amended): `vn_instance_wait_roundtrip` returns only after an
`extra` value `v` is observed (with an acquire-ordered load) satisfying the
code's exit condition `v >= seqno or (seqno - v) mod 2^32 >= INT32_MAX`; the
spec's wraparound predicate `v == seqno or (v - seqno) mod 2^32 < INT32_MAX`
implies that exit condition for every pair of uint32 values (including values
near `u32::MAX`), but the two are not equivalent: the exit condition is
strictly weaker. -/
theorem vn_instance_wait_roundtrip_spec :
    (∀ obs seqno v, vn_instance_wait_roundtrip_loop obs seqno = some v →
      vn_roundtrip_exit_cond v seqno = true) ∧
    (∀ v seqno, v < 4294967296 → seqno < 4294967296 →
      spec_at_or_after v seqno = true → vn_roundtrip_exit_cond v seqno = true) := by
  constructor
  · exact vn_instance_wait_roundtrip_loop_exit
  · intro v seqno hv hs h
    simp only [spec_at_or_after, Bool.or_eq_true, decide_eq_true_eq] at h
    simp only [vn_roundtrip_exit_cond, Bool.or_eq_true, decide_eq_true_eq]
    rcases h with h | h
    · left; omega
    · unfold sub32 at h ⊢
      rcases le_or_lt seqno v with hle | hlt
      · left; exact hle
      · right
        have h1 : v + 4294967296 - seqno < 4294967296 := by omega
        rw [Nat.mod_eq_of_lt h1] at h
        have h2 : seqno + 4294967296 - v = (seqno - v) + 4294967296 := by omega
        have h3 : (seqno + 4294967296 - v) % 4294967296 = seqno - v := by
          rw [h2, Nat.add_mod_right, Nat.mod_eq_of_lt (by omega)]
        rw [h3]
        omega

/-- Witness for the amended C3 at concrete inputs: a loop observing
`[5, 6, 7]` with seqno `7` returns `7`, which satisfies the exit
condition; and the spec predicate implies the exit condition at
`v = 4294967295`, `seqno = 4294967290`. -/
theorem vn_instance_wait_roundtrip_spec_witness :
    vn_roundtrip_exit_cond 7 7 = true ∧ vn_roundtrip_exit_cond 4294967295 4294967290 = true :=
  ⟨vn_instance_wait_roundtrip_spec.1 [5, 6, 7] 7 7 (by decide),
   vn_instance_wait_roundtrip_spec.2 4294967295 4294967290 (by decide) (by decide) (by decide)⟩

/-! ## Reply buffer growth (`vn_instance_grow_reply_bo_locked`, vn_device.c:458-490)

`size_t` is 64-bit; the doubling `bo_size <<= 1` wraps modulo `2^64` and the
code bails out (`return false`) when it wraps to zero. -/

/-- The client-side reply stream: a growable BO with capacity and a cursor
(`instance->reply.{bo,size,used}`). -/
structure VnReplyState where
  bo : Option Nat
  size : Nat
  used : Nat
deriving DecidableEq, Repr

/-- Outcome oracle for the renderer allocation calls made while growing the
reply BO (`vn_renderer_bo_create_cpu` and `vn_renderer_bo_map` are renderer
interface calls; `newBoId` identifies the freshly created BO). -/
structure VnReplyOracle where
  allocOk : Bool
  mapOk : Bool
  newBoId : Nat
deriving DecidableEq, Repr

/-- The doubling loop of `vn_instance_grow_reply_bo_locked`:
`while (bo_size < size) { bo_size <<= 1; if (!bo_size) return false; }`.
The fuel argument only bounds the recursion; 64 iterations are enough for any
64-bit starting value. -/
def growLoop (fuel b size : Nat) : Option Nat :=
  match fuel with
  | 0 => none
  | fuel + 1 =>
    if b < size then
      if (b * 2) % 18446744073709551616 = 0 then none
      else growLoop fuel ((b * 2) % 18446744073709551616) size
    else some b

/-- `vn_instance_grow_reply_bo_locked`: starting from the current capacity
(or the fixed 1 MiB floor when there is no reply BO yet), double until the
requested size fits; allocate and map a fresh BO of that capacity; on
success install it and reset `used`; on wraparound or renderer failure
return `false` leaving the reply state untouched. -/
def vn_instance_grow_reply_bo_locked (rst : VnReplyState) (size : Nat)
    (ro : VnReplyOracle) : Bool × VnReplyState :=
  match growLoop 64 (if rst.size = 0 then 1048576 else rst.size) size with
  | none => (false, rst)
  | some bo_size =>
    if ro.allocOk = false then (false, rst)
    else if ro.mapOk = false then (false, rst)
    else (true, { bo := some ro.newBoId, size := bo_size, used := 0 })

theorem growLoop_pow_spec :
    ∀ (fuel m size r : Nat), m < 64 →
      growLoop fuel (2 ^ m) size = some r →
      r < 18446744073709551616 ∧ size ≤ r ∧
        ∃ i, r = 2 ^ m * 2 ^ i ∧ ∀ ip, ip < i → 2 ^ m * 2 ^ ip < size := by
  intro fuel
  induction fuel with
  | zero =>
    intro m size r hm h
    simp [growLoop] at h
  | succ fuel ih =>
    intro m size r hm h
    rw [growLoop] at h
    by_cases hbs : 2 ^ m < size
    · rw [if_pos hbs] at h
      have hmul : 2 ^ m * 2 = 2 ^ (m + 1) := by rw [pow_succ]
      by_cases hm1 : m + 1 < 64
      · have hlt : 2 ^ (m + 1) < 18446744073709551616 := by
          have h64 : (18446744073709551616 : Nat) = 2 ^ 64 := by norm_num
          rw [h64]
          exact Nat.pow_lt_pow_right (by norm_num) hm1
        have hb2 : (2 ^ m * 2) % 18446744073709551616 = 2 ^ (m + 1) := by
          rw [hmul, Nat.mod_eq_of_lt hlt]
        have hne : (2 : Nat) ^ (m + 1) ≠ 0 := by positivity
        rw [hb2, if_neg hne] at h
        obtain ⟨h1, h2, i, hi, hmin⟩ := ih (m + 1) size r hm1 h
        refine ⟨h1, h2, i + 1, ?_, ?_⟩
        · rw [hi, pow_succ 2 m, pow_succ 2 i]
          ring
        · intro ip hip
          match ip with
          | 0 =>
            simpa using hbs
          | q + 1 =>
            have hq : q < i := by omega
            have := hmin q hq
            calc 2 ^ m * 2 ^ (q + 1) = 2 ^ (m + 1) * 2 ^ q := by
                  rw [pow_succ 2 m, pow_succ 2 q]; ring
              _ < size := this
      · have hm64 : m + 1 = 64 := by omega
        have hb2 : (2 ^ m * 2) % 18446744073709551616 = 0 := by
          rw [hmul, hm64]
          norm_num
        rw [hb2, if_pos rfl] at h
        exact absurd h (by simp)
    · rw [if_neg hbs] at h
      have hr : r = 2 ^ m := by
        have := Option.some.inj h
        omega
      subst hr
      refine ⟨?_, by omega, 0, by simp, by omega⟩
      have h64 : (18446744073709551616 : Nat) = 2 ^ 64 := by norm_num
      rw [h64]
      exact Nat.pow_lt_pow_right (by norm_num) hm

/-- Claim C5: a reply-region request larger than the current reply-stream
capacity causes exactly one growth step: the new capacity is the first
power-of-two multiple of the 1 MiB floor that is at least the requested
size (the floor itself when no reply BO existed and the request fits in
1 MiB — the `j = 0` instance of the minimality conjunct), `used` is reset
to 0 and a fresh BO is installed; on doubling overflow (request above
`2^63`) or allocation/mapping failure the call returns `false` and the
previous reply state (BO, capacity, used count) is unchanged. -/
theorem vn_instance_grow_reply_bo_spec
    (rst : VnReplyState) (size : Nat) (ro : VnReplyOracle)
    (b : Bool) (rst2 : VnReplyState)
    (hfloor : rst.size = 0 ∨ ∃ k, k ≤ 43 ∧ rst.size = 1048576 * 2 ^ k)
    (hreq : rst.size < size)
    (hrun : vn_instance_grow_reply_bo_locked rst size ro = (b, rst2)) :
    (b = false → rst2 = rst) ∧
    (ro.allocOk = false ∨ ro.mapOk = false → b = false) ∧
    (9223372036854775808 < size → b = false) ∧
    (b = true →
      rst2.used = 0 ∧ rst2.bo = some ro.newBoId ∧ size ≤ rst2.size ∧
      (∃ j, rst2.size = 1048576 * 2 ^ j) ∧
      ∀ jp, size ≤ 1048576 * 2 ^ jp → rst2.size ≤ 1048576 * 2 ^ jp) := by
  have hstart : ∃ k, 20 + k < 64 ∧
      (if rst.size = 0 then 1048576 else rst.size) = 2 ^ (20 + k) ∧
      (∀ jp, jp < k → 1048576 * 2 ^ jp < size) := by
    rcases hfloor with h0 | ⟨k, hk43, hs⟩
    · exact ⟨0, by norm_num, by rw [if_pos h0]; norm_num, by omega⟩
    · refine ⟨k, by omega, ?_, ?_⟩
      · have hne : rst.size ≠ 0 := by rw [hs]; positivity
        rw [if_neg hne, hs, pow_add]
        norm_num
      · intro jp hjp
        have hp : (2 : Nat) ^ jp < 2 ^ k := Nat.pow_lt_pow_right (by norm_num) hjp
        have hlt : (1048576 : Nat) * 2 ^ jp < 1048576 * 2 ^ k :=
          mul_lt_mul_of_pos_left hp (by norm_num)
        omega
  obtain ⟨k, hk64, hstart_eq, hbelow⟩ := hstart
  unfold vn_instance_grow_reply_bo_locked at hrun
  rw [hstart_eq] at hrun
  split at hrun
  case _ hgl =>
    obtain ⟨hb, hst⟩ := Prod.mk.injEq .. ▸ hrun
    refine ⟨fun _ => hst.symm, fun _ => hb.symm, fun _ => hb.symm, fun ht => ?_⟩
    rw [← hb] at ht; exact absurd ht (by simp)
  case _ bo_size hgl =>
    obtain ⟨hlt64, hsz, i, hi, hmin⟩ :=
      growLoop_pow_spec 64 (20 + k) size bo_size hk64 hgl
    have hsz_eq : bo_size = 1048576 * 2 ^ (k + i) := by
      rw [hi, pow_add 2 20 k, pow_add 2 k i]
      norm_num
      ring
    have hpow2064 : (2 : Nat) ^ (20 + (k + i)) = 1048576 * 2 ^ (k + i) := by
      rw [pow_add]
      norm_num
    split at hrun
    case _ ha =>
      obtain ⟨hb, hst⟩ := Prod.mk.injEq .. ▸ hrun
      refine ⟨fun _ => hst.symm, fun _ => hb.symm, fun _ => hb.symm, fun ht => ?_⟩
      rw [← hb] at ht; exact absurd ht (by simp)
    case _ ha =>
      split at hrun
      case _ hm =>
        obtain ⟨hb, hst⟩ := Prod.mk.injEq .. ▸ hrun
        refine ⟨fun _ => hst.symm, fun _ => hb.symm, fun _ => hb.symm, fun ht => ?_⟩
        rw [← hb] at ht; exact absurd ht (by simp)
      case _ hm =>
        obtain ⟨hb, hst⟩ := Prod.mk.injEq .. ▸ hrun
        have hexp : 20 + (k + i) < 64 := by
          have hbig : bo_size = 2 ^ (20 + (k + i)) := by
            rw [hsz_eq, hpow2064]
          rw [hbig] at hlt64
          have h64 : (18446744073709551616 : Nat) = 2 ^ 64 := by norm_num
          rw [h64] at hlt64
          exact (Nat.pow_lt_pow_iff_right (by norm_num)).mp hlt64
        constructor
        · intro hf; rw [← hb] at hf; exact absurd hf (by simp)
        constructor
        · intro hor
          rcases hor with h | h
          · exact absurd h ha
          · exact absurd h hm
        constructor
        · intro hbig
          exfalso
          have hle63 : bo_size ≤ 9223372036854775808 := by
            have hb63 : bo_size = 2 ^ (20 + (k + i)) := by
              rw [hsz_eq, hpow2064]
            have h63 : (9223372036854775808 : Nat) = 2 ^ 63 := by norm_num
            rw [hb63, h63]
            exact Nat.pow_le_pow_right (by norm_num) (by omega)
          omega
        · intro _
          rw [← hst]
          refine ⟨rfl, rfl, hsz, ⟨k + i, hsz_eq⟩, ?_⟩
          intro jp hjp
          rcases lt_or_le jp k with hjk | hjk
          · exact absurd (hbelow jp hjk) (by omega)
          · rcases le_or_lt (k + i) jp with hki | hki
            · rw [hsz_eq]
              have : (2 : Nat) ^ (k + i) ≤ 2 ^ jp :=
                Nat.pow_le_pow_right (by norm_num) hki
              exact Nat.mul_le_mul_left _ this
            · exfalso
              have hq : jp - k < i := by omega
              have := hmin (jp - k) hq
              have heq : 2 ^ (20 + k) * 2 ^ (jp - k) = 1048576 * 2 ^ jp := by
                rw [pow_add 2 20 k]
                have : (2 : Nat) ^ k * 2 ^ (jp - k) = 2 ^ jp := by
                  rw [← pow_add]
                  congr 1
                  omega
                norm_num
                calc 2 ^ 20 * 2 ^ k * 2 ^ (jp - k)
                    = 2 ^ 20 * (2 ^ k * 2 ^ (jp - k)) := by ring
                  _ = 2 ^ 20 * 2 ^ jp := by rw [this]
              rw [heq] at this
              omega

/-- Witness for C5: growing from an empty reply state for a 1-byte request
succeeds and yields the 1 MiB floor. -/
theorem vn_instance_grow_reply_bo_spec_witness :
    0 ≤ 1048576 ∧
    (vn_instance_grow_reply_bo_locked ⟨none, 0, 0⟩ 1 ⟨true, true, 7⟩).2.size = 1048576 := by
  have h := vn_instance_grow_reply_bo_spec ⟨none, 0, 0⟩ 1 ⟨true, true, 7⟩
    (vn_instance_grow_reply_bo_locked ⟨none, 0, 0⟩ 1 ⟨true, true, 7⟩).1
    (vn_instance_grow_reply_bo_locked ⟨none, 0, 0⟩ 1 ⟨true, true, 7⟩).2
    (Or.inl rfl) (by norm_num) rfl
  refine ⟨by norm_num, ?_⟩
  have hb : (vn_instance_grow_reply_bo_locked ⟨none, 0, 0⟩ 1 ⟨true, true, 7⟩).1 = true := by
    decide
  have h4 := h.2.2.2 hb
  have hmin := h4.2.2.2.2 0 (by norm_num)
  have hge := h4.2.2.1
  obtain ⟨j, hj⟩ := h4.2.2.2.1
  simp only [pow_zero, mul_one] at hmin
  omega

/-! ## Synchronization payloads (vn_device.c:3545-3903)

A fence/semaphore owns two `vn_sync_payload` slots (`permanent`,
`temporary`) and a selector `payload` that always points at one of them.
`vn_renderer_sync` objects are modelled by a handle id plus the renderer-side
counter value currently stored in the sync (enough to express "reset to
unsignaled" and "signaled to value v"). -/

/-- `vn_sync_type`: `VN_SYNC_TYPE_{INVALID,DEVICE_ONLY,SYNC,WSI_SIGNALED}`. -/
inductive VnSyncType where
  | invalid
  | deviceOnly
  | sync
  | wsiSignaled
deriving DecidableEq, Repr

/-- A `vn_sync_payload`: its type tag, the renderer sync handle it owns, and
the renderer-side value of that sync. -/
structure VnSyncPayload where
  ty : VnSyncType
  syncId : Nat
  val : Nat
deriving DecidableEq, Repr

/-- Which slot the `payload` pointer of a fence/semaphore designates. -/
inductive VnSlot where
  | perm
  | temp
deriving DecidableEq, Repr

/-- `VkSemaphoreType`. -/
inductive VnSemaphoreType where
  | binary
  | timeline
deriving DecidableEq, Repr

/-- `struct vn_semaphore`: two payload slots, the active-slot selector and
the semaphore type. -/
structure VnSemaphore where
  permanent : VnSyncPayload
  temporary : VnSyncPayload
  active : VnSlot
  semType : VnSemaphoreType
deriving DecidableEq, Repr

/-- The active payload (`sem->payload`). -/
def VnSemaphore.payload (s : VnSemaphore) : VnSyncPayload :=
  match s.active with
  | .perm => s.permanent
  | .temp => s.temporary

/-- `struct vn_fence`: two payload slots and the active-slot selector. -/
structure VnFence where
  permanent : VnSyncPayload
  temporary : VnSyncPayload
  active : VnSlot
deriving DecidableEq, Repr

/-- The active payload (`fence->payload`). -/
def VnFence.payload (f : VnFence) : VnSyncPayload :=
  match f.active with
  | .perm => f.permanent
  | .temp => f.temporary

/-- `vn_sync_payload_release`: release the renderer sync if the payload type
is `SYNC`, then set the type to `INVALID` (the handle object is kept and can
be re-initialized later). -/
def vn_sync_payload_release (p : VnSyncPayload) : VnSyncPayload :=
  { p with ty := .invalid }

/-- `vn_semaphore_reset_wsi` (vn_device.c:3883-3893): release the temporary
payload, reset the permanent renderer sync to unsignaled if it is a
`SYNC` payload, and make the permanent slot active again. -/
def vn_semaphore_reset_wsi (s : VnSemaphore) : VnSemaphore :=
  { s with
    temporary := vn_sync_payload_release s.temporary
    permanent :=
      if s.permanent.ty = .sync then { s.permanent with val := 0 } else s.permanent
    active := .perm }

/-- `vn_semaphore_signal_wsi` (vn_device.c:3895-3903): release the temporary
payload, mark it externally signaled and make it active. -/
def vn_semaphore_signal_wsi (s : VnSemaphore) : VnSemaphore :=
  { s with
    temporary := { vn_sync_payload_release s.temporary with ty := .wsiSignaled }
    active := .temp }

/-! ## WSI wait-semaphore filtering
(`vn_queue_submission_filter_batch_wsi_semaphores`, vn_device.c:3126-3184)

Semaphore handles are modelled as `Nat` indices into a store. The loop keeps
non-WSI-signaled wait semaphores in order and resets each WSI-signaled one. -/

/-- The per-batch filter loop: walk the batch's wait-semaphore list; a
semaphore whose active payload is `WSI_SIGNALED` is dropped (and reset via
`vn_semaphore_reset_wsi`); the others are appended, in order, to the
destination list.  Returns the filtered list and the updated semaphore
store. -/
def vn_queue_submission_filter_batch_wsi_semaphores
    (store : Nat → VnSemaphore) : List Nat → List Nat × (Nat → VnSemaphore)
  | [] => ([], store)
  | s :: rest =>
    if (store s).payload.ty = .wsiSignaled then
      vn_queue_submission_filter_batch_wsi_semaphores
        (Function.update store s (vn_semaphore_reset_wsi (store s))) rest
    else
      let r := vn_queue_submission_filter_batch_wsi_semaphores store rest
      (s :: r.1, r.2)

theorem filter_batch_wsi_update_comm (store : Nat → VnSemaphore) (s : Nat)
    (x : VnSemaphore) (l : List Nat) (hs : s ∉ l) :
    vn_queue_submission_filter_batch_wsi_semaphores (Function.update store s x) l =
      ((vn_queue_submission_filter_batch_wsi_semaphores store l).1,
       Function.update (vn_queue_submission_filter_batch_wsi_semaphores store l).2 s x) := by
  induction l generalizing store with
  | nil => simp [vn_queue_submission_filter_batch_wsi_semaphores]
  | cons t rest ih =>
    have hts : t ≠ s := fun h => hs (h ▸ List.mem_cons_self t rest)
    have hs' : s ∉ rest := fun h => hs (List.mem_cons_of_mem t h)
    rw [vn_queue_submission_filter_batch_wsi_semaphores,
        vn_queue_submission_filter_batch_wsi_semaphores]
    rw [Function.update_noteq hts x store]
    by_cases hw : (store t).payload.ty = .wsiSignaled
    · rw [if_pos hw, if_pos hw]
      rw [Function.update_comm hts.symm]
      exact ih (Function.update store t (vn_semaphore_reset_wsi (store t))) hs'
    · rw [if_neg hw, if_neg hw]
      simp only [ih store hs']

/-- Claim C2: for a batch's wait-semaphore list without duplicate handles,
the filter removes exactly the semaphores whose active payload is
`WSI_SIGNALED`, keeps the remaining wait semaphores in their relative order
(a `List.filter`), resets each removed semaphore via
`vn_semaphore_reset_wsi` — temporary payload released to `INVALID`,
permanent renderer sync reset to unsignaled when it is a `SYNC` payload,
active payload back to the permanent slot — and leaves every other
semaphore in the store untouched. -/
theorem vn_queue_submission_filter_batch_wsi_spec
    (store : Nat → VnSemaphore) (sems : List Nat) (hnd : sems.Nodup) :
    (vn_queue_submission_filter_batch_wsi_semaphores store sems).1 =
      sems.filter (fun s => ¬(store s).payload.ty = .wsiSignaled) ∧
    (∀ s ∈ sems, (store s).payload.ty = .wsiSignaled →
      (vn_queue_submission_filter_batch_wsi_semaphores store sems).2 s =
        vn_semaphore_reset_wsi (store s) ∧
      (vn_semaphore_reset_wsi (store s)).temporary.ty = .invalid ∧
      ((store s).permanent.ty = .sync →
        (vn_semaphore_reset_wsi (store s)).permanent.val = 0) ∧
      (vn_semaphore_reset_wsi (store s)).active = .perm) ∧
    (∀ s ∈ sems, ¬(store s).payload.ty = .wsiSignaled →
      (vn_queue_submission_filter_batch_wsi_semaphores store sems).2 s = store s) ∧
    (∀ s, s ∉ sems →
      (vn_queue_submission_filter_batch_wsi_semaphores store sems).2 s = store s) := by
  induction sems generalizing store with
  | nil =>
    refine ⟨by simp [vn_queue_submission_filter_batch_wsi_semaphores], ?_, ?_, ?_⟩
    · intro s hs; exact absurd hs (List.not_mem_nil s)
    · intro s hs; exact absurd hs (List.not_mem_nil s)
    · intro s _; rfl
  | cons t rest ih =>
    have hnd' : rest.Nodup := (List.nodup_cons.mp hnd).2
    have htr : t ∉ rest := (List.nodup_cons.mp hnd).1
    by_cases hw : (store t).payload.ty = .wsiSignaled
    · rw [vn_queue_submission_filter_batch_wsi_semaphores]
      rw [if_pos hw]
      rw [filter_batch_wsi_update_comm store t (vn_semaphore_reset_wsi (store t)) rest htr]
      dsimp only
      obtain ⟨ih1, ih2, ih3, ih4⟩ := ih store hnd'
      refine ⟨?_, ?_, ?_, ?_⟩
      · simp only [List.filter_cons, hw]
        simp only [decide_not, ih1]
        simp [hw]
      · intro s hs hsw
        rcases List.mem_cons.mp hs with rfl | hsr
        · rw [Function.update_same]
          refine ⟨rfl, rfl, ?_, rfl⟩
          intro hp
          simp [vn_semaphore_reset_wsi, hp]
        · have hst : s ≠ t := fun h => htr (h ▸ hsr)
          rw [Function.update_noteq hst]
          exact ih2 s hsr hsw
      · intro s hs hsw
        rcases List.mem_cons.mp hs with rfl | hsr
        · exact absurd hw hsw
        · have hst : s ≠ t := fun h => htr (h ▸ hsr)
          rw [Function.update_noteq hst]
          exact ih3 s hsr hsw
      · intro s hs
        have hst : s ≠ t := fun h => hs (h ▸ List.mem_cons_self t rest)
        have hsr : s ∉ rest := fun h => hs (List.mem_cons_of_mem t h)
        rw [Function.update_noteq hst]
        exact ih4 s hsr
    · rw [vn_queue_submission_filter_batch_wsi_semaphores]
      rw [if_neg hw]
      obtain ⟨ih1, ih2, ih3, ih4⟩ := ih store hnd'
      refine ⟨?_, ?_, ?_, ?_⟩
      · simp only [List.filter_cons]
        simp [hw, ih1]
      · intro s hs hsw
        rcases List.mem_cons.mp hs with rfl | hsr
        · exact absurd hsw hw
        · exact ih2 s hsr hsw
      · intro s hs hsw
        rcases List.mem_cons.mp hs with rfl | hsr
        · exact ih4 _ htr
        · exact ih3 s hsr hsw
      · intro s hs
        have hsr : s ∉ rest := fun h => hs (List.mem_cons_of_mem t h)
        exact ih4 s hsr

/-- Witness for C2 on a concrete store: semaphore 0 is WSI-signaled (active
temporary), semaphore 1 has a plain device-only payload; the batch waits on
`[0, 1]`.  Semaphore 0 is dropped and reset, semaphore 1 is kept. -/
theorem vn_queue_submission_filter_batch_wsi_spec_witness :
    [0, 1].Nodup ∧
    (vn_queue_submission_filter_batch_wsi_semaphores
      (fun n =>
        if n = 0 then
          { permanent := ⟨.sync, 0, 1⟩, temporary := ⟨.wsiSignaled, 1, 0⟩,
            active := .temp, semType := .binary }
        else
          { permanent := ⟨.deviceOnly, 2, 0⟩, temporary := ⟨.invalid, 3, 0⟩,
            active := .perm, semType := .binary }) [0, 1]).1 = [1] := by
  have h := vn_queue_submission_filter_batch_wsi_spec
    (fun n =>
      if n = 0 then
        { permanent := ⟨.sync, 0, 1⟩, temporary := ⟨.wsiSignaled, 1, 0⟩,
          active := .temp, semType := .binary }
      else
        { permanent := ⟨.deviceOnly, 2, 0⟩, temporary := ⟨.invalid, 3, 0⟩,
          active := .perm, semType := .binary }) [0, 1] (by decide)
  refine ⟨by decide, ?_⟩
  rw [h.1]
  decide

/-! ## Fence/semaphore payload lifecycle (vn_device.c:3557-3686, 3714-3838,
3842-4106)

Each public operation's effect on the two payload slots and the active-slot
selector, as an operation algebra.  Renderer failures are oracles (`ok`);
`vn_WaitForFences` / `vn_WaitSemaphores` never mutate the payload slots. -/

/-- `vn_fence_init_payloads` on success: permanent is a fence `SYNC`
payload (signaled iff requested), temporary starts `INVALID`, the permanent
slot is active. -/
def vn_fence_init (signaled : Bool) : VnFence :=
  { permanent := ⟨.sync, 0, if signaled then 1 else 0⟩
    temporary := ⟨.invalid, 1, 0⟩
    active := .perm }

/-- `vn_fence_signal_wsi`: release temporary, tag it `WSI_SIGNALED`, make it
active. -/
def vn_fence_signal_wsi (f : VnFence) : VnFence :=
  { f with
    temporary := { vn_sync_payload_release f.temporary with ty := .wsiSignaled }
    active := .temp }

/-- The per-fence body of `vn_ResetFences`: release temporary, reset the
permanent renderer sync to unsignaled, make permanent active. -/
def vn_fence_reset (f : VnFence) : VnFence :=
  { f with
    temporary := vn_sync_payload_release f.temporary
    permanent := { f.permanent with val := 0 }
    active := .perm }

/-- `vn_ImportFenceFdKHR`: on renderer failure the fence is unchanged;
on success the target slot becomes a `SYNC` payload holding the imported
state and that slot becomes active. -/
def vn_fence_import (f : VnFence) (toTemp ok : Bool) (v : Nat) : VnFence :=
  if ok = false then f
  else if toTemp then
    { f with temporary := ⟨.sync, f.temporary.syncId, v⟩, active := .temp }
  else
    { f with permanent := ⟨.sync, f.permanent.syncId, v⟩, active := .perm }

/-- `vn_GetFenceFdKHR`: on export failure the fence is unchanged; on success
with a sync-file handle type the fence is reset (`vn_ResetFences` is called
on it); an opaque export leaves the payload state unchanged. -/
def vn_GetFenceFdKHR_state (f : VnFence) (syncFile ok : Bool) : VnFence :=
  if ok = false then f
  else if syncFile then vn_fence_reset f
  else f

/-- The fence operations that touch payload state. -/
inductive VnFenceOp where
  | signalWsi
  | reset
  | waitFences
  | importFd (toTemp ok : Bool) (v : Nat)
  | exportFd (syncFile ok : Bool)
deriving DecidableEq, Repr

/-- Effect of one fence operation on the payload slots
(`vn_WaitForFences` reads payloads but never writes them). -/
def applyVnFenceOp (f : VnFence) : VnFenceOp → VnFence
  | .signalWsi => vn_fence_signal_wsi f
  | .reset => vn_fence_reset f
  | .waitFences => f
  | .importFd toTemp ok v => vn_fence_import f toTemp ok v
  | .exportFd syncFile ok => vn_GetFenceFdKHR_state f syncFile ok

/-- A fence evolving through a sequence of operations. -/
def applyVnFenceOps (f : VnFence) (ops : List VnFenceOp) : VnFence :=
  ops.foldl applyVnFenceOp f

/-- `vn_semaphore_init_payloads` on success: timeline semaphores get a
`SYNC` permanent payload at the initial value, binary semaphores a
`DEVICE_ONLY` one; temporary starts `INVALID`; permanent is active. -/
def vn_semaphore_init (ty : VnSemaphoreType) (initial : Nat) : VnSemaphore :=
  { permanent :=
      ⟨if ty = .timeline then .sync else .deviceOnly, 0,
       if ty = .timeline then initial else 0⟩
    temporary := ⟨.invalid, 1, 0⟩
    active := .perm
    semType := ty }

/-- `vn_ImportSemaphoreFdKHR`: same slot discipline as the fence import. -/
def vn_semaphore_import (s : VnSemaphore) (toTemp ok : Bool) (v : Nat) : VnSemaphore :=
  if ok = false then s
  else if toTemp then
    { s with temporary := ⟨.sync, s.temporary.syncId, v⟩, active := .temp }
  else
    { s with permanent := ⟨.sync, s.permanent.syncId, v⟩, active := .perm }

/-- `vn_GetSemaphoreFdKHR`: on success with a sync-file handle type the
temporary payload is released, the permanent renderer sync is reset to
unsignaled, and the permanent slot becomes active. -/
def vn_GetSemaphoreFdKHR_state (s : VnSemaphore) (syncFile ok : Bool) : VnSemaphore :=
  if ok = false then s
  else if syncFile then
    { s with
      temporary := vn_sync_payload_release s.temporary
      permanent := { s.permanent with val := 0 }
      active := .perm }
  else s

/-- `vn_SignalSemaphore`: write the given value into the active payload's
renderer sync. -/
def vn_SignalSemaphore_state (s : VnSemaphore) (v : Nat) : VnSemaphore :=
  match s.active with
  | .perm => { s with permanent := { s.permanent with val := v } }
  | .temp => { s with temporary := { s.temporary with val := v } }

/-- The semaphore operations that touch payload state (`resetWsi` is the
reset performed when a queue submission waits on a WSI-signaled
semaphore). -/
inductive VnSemaphoreOp where
  | signalWsi
  | resetWsi
  | waitSemaphores
  | signalTimeline (v : Nat)
  | importFd (toTemp ok : Bool) (v : Nat)
  | exportFd (syncFile ok : Bool)
deriving DecidableEq, Repr

/-- Effect of one semaphore operation on the payload slots
(`vn_WaitSemaphores` reads payloads but never writes them). -/
def applyVnSemaphoreOp (s : VnSemaphore) : VnSemaphoreOp → VnSemaphore
  | .signalWsi => vn_semaphore_signal_wsi s
  | .resetWsi => vn_semaphore_reset_wsi s
  | .waitSemaphores => s
  | .signalTimeline v => vn_SignalSemaphore_state s v
  | .importFd toTemp ok v => vn_semaphore_import s toTemp ok v
  | .exportFd syncFile ok => vn_GetSemaphoreFdKHR_state s syncFile ok

/-- A semaphore evolving through a sequence of operations. -/
def applyVnSemaphoreOps (s : VnSemaphore) (ops : List VnSemaphoreOp) : VnSemaphore :=
  ops.foldl applyVnSemaphoreOp s

/-- Well-formedness of a fence's payload slots: the permanent payload is the
fence's own renderer sync, the active payload is never `INVALID`, and the
temporary slot is `INVALID`, an imported `SYNC`, or `WSI_SIGNALED`. -/
def VnFenceWF (f : VnFence) : Prop :=
  f.permanent.ty = .sync ∧ f.payload.ty ≠ .invalid ∧
    (f.temporary.ty = .invalid ∨ f.temporary.ty = .sync ∨
     f.temporary.ty = .wsiSignaled)

/-- Well-formedness of a semaphore's payload slots. -/
def VnSemaphoreWF (s : VnSemaphore) : Prop :=
  (s.permanent.ty = .sync ∨ s.permanent.ty = .deviceOnly) ∧
    s.payload.ty ≠ .invalid ∧
    (s.temporary.ty = .invalid ∨ s.temporary.ty = .sync ∨
     s.temporary.ty = .wsiSignaled)

theorem vn_fence_wf_step (f : VnFence) (op : VnFenceOp) (h : VnFenceWF f) :
    VnFenceWF (applyVnFenceOp f op) := by
  obtain ⟨hp, ha, ht⟩ := h
  cases op with
  | signalWsi =>
    simp [applyVnFenceOp, vn_fence_signal_wsi, VnFenceWF, VnFence.payload,
      vn_sync_payload_release, hp]
  | reset =>
    simp [applyVnFenceOp, vn_fence_reset, VnFenceWF, VnFence.payload,
      vn_sync_payload_release, hp]
  | waitFences => exact ⟨hp, ha, ht⟩
  | importFd toTemp ok v =>
    by_cases hok : ok = false
    · simpa [applyVnFenceOp, vn_fence_import, hok] using ⟨hp, ha, ht⟩
    · cases toTemp with
      | true =>
        simp [applyVnFenceOp, vn_fence_import, hok, VnFenceWF, VnFence.payload, hp]
      | false =>
        simp [applyVnFenceOp, vn_fence_import, hok, VnFenceWF, VnFence.payload, ht]
  | exportFd syncFile ok =>
    by_cases hok : ok = false
    · simpa [applyVnFenceOp, vn_GetFenceFdKHR_state, hok] using ⟨hp, ha, ht⟩
    · cases syncFile with
      | true =>
        simp [applyVnFenceOp, vn_GetFenceFdKHR_state, hok, vn_fence_reset,
          VnFenceWF, VnFence.payload, vn_sync_payload_release, hp]
      | false =>
        simpa [applyVnFenceOp, vn_GetFenceFdKHR_state, hok] using ⟨hp, ha, ht⟩

theorem vn_semaphore_wf_step (s : VnSemaphore) (op : VnSemaphoreOp)
    (h : VnSemaphoreWF s) : VnSemaphoreWF (applyVnSemaphoreOp s op) := by
  obtain ⟨hp, ha, ht⟩ := h
  cases op with
  | signalWsi =>
    simp [applyVnSemaphoreOp, vn_semaphore_signal_wsi, VnSemaphoreWF,
      VnSemaphore.payload, vn_sync_payload_release, hp]
  | resetWsi =>
    rcases hp with hp | hp <;>
      simp [applyVnSemaphoreOp, vn_semaphore_reset_wsi, VnSemaphoreWF,
        VnSemaphore.payload, vn_sync_payload_release, hp]
  | waitSemaphores => exact ⟨hp, ha, ht⟩
  | signalTimeline v =>
    cases hact : s.active with
    | perm =>
      refine ⟨?_, ?_, ?_⟩ <;>
        simp_all [applyVnSemaphoreOp, vn_SignalSemaphore_state, VnSemaphore.payload, hact]
    | temp =>
      refine ⟨?_, ?_, ?_⟩ <;>
        simp_all [applyVnSemaphoreOp, vn_SignalSemaphore_state, VnSemaphore.payload, hact]
  | importFd toTemp ok v =>
    by_cases hok : ok = false
    · simpa [applyVnSemaphoreOp, vn_semaphore_import, hok] using ⟨hp, ha, ht⟩
    · cases toTemp with
      | true =>
        simp [applyVnSemaphoreOp, vn_semaphore_import, hok, VnSemaphoreWF,
          VnSemaphore.payload, hp]
      | false =>
        simp [applyVnSemaphoreOp, vn_semaphore_import, hok, VnSemaphoreWF,
          VnSemaphore.payload, ht]
  | exportFd syncFile ok =>
    by_cases hok : ok = false
    · simpa [applyVnSemaphoreOp, vn_GetSemaphoreFdKHR_state, hok] using ⟨hp, ha, ht⟩
    · cases syncFile with
      | true =>
        rcases hp with hp | hp <;>
          simp [applyVnSemaphoreOp, vn_GetSemaphoreFdKHR_state, hok, VnSemaphoreWF,
            VnSemaphore.payload, vn_sync_payload_release, hp]
      | false =>
        simpa [applyVnSemaphoreOp, vn_GetSemaphoreFdKHR_state, hok] using ⟨hp, ha, ht⟩

/-- Claim C4 as stated is false: the temporary payload is *not* consumed
back to `INVALID` by the next wait operation.  Concretely: WSI-signal a
fence, then call `vn_WaitForFences` on it — the temporary payload is still
`WSI_SIGNALED` afterwards (only a reset consumes it). -/
theorem vn_fence_temporary_survives_wait :
    (applyVnFenceOp (applyVnFenceOp (vn_fence_init false) .signalWsi)
        .waitFences).temporary.ty = .wsiSignaled := by
  decide

/-- Claim C4 (amended): for every fence and semaphore, after creation and
after every sequence of operations exactly one payload slot is active and
the active payload is never `INVALID`; the temporary slot starts `INVALID`
and becomes non-`INVALID` only via a temporary import or a WSI
external-signal operation; it is consumed back to `INVALID` by the next
*reset* (`vn_ResetFences`, the WSI reset a queue submission applies to a
waited WSI-signaled semaphore, or a sync-fd export, which resets); a plain
fence/semaphore *wait* leaves the payload slots unchanged. -/
theorem vn_sync_payload_slots_spec :
    ((vn_fence_init false).temporary.ty = .invalid ∧
     (vn_fence_init true).temporary.ty = .invalid ∧
     (∀ ty v, (vn_semaphore_init ty v).temporary.ty = .invalid)) ∧
    (∀ signaled ops, VnFenceWF (applyVnFenceOps (vn_fence_init signaled) ops)) ∧
    (∀ ty v ops, VnSemaphoreWF (applyVnSemaphoreOps (vn_semaphore_init ty v) ops)) ∧
    (∀ f op, (applyVnFenceOp f op).temporary.ty ≠ .invalid →
      (applyVnFenceOp f op).temporary.ty = f.temporary.ty ∨
      op = .signalWsi ∨ (∃ v, op = .importFd true true v)) ∧
    (∀ s op, (applyVnSemaphoreOp s op).temporary.ty ≠ .invalid →
      (applyVnSemaphoreOp s op).temporary.ty = s.temporary.ty ∨
      op = .signalWsi ∨ (∃ v, op = .importFd true true v)) ∧
    (∀ f, (applyVnFenceOp f .reset).temporary.ty = .invalid ∧
          (applyVnFenceOp f .reset).active = .perm) ∧
    (∀ s, (applyVnSemaphoreOp s .resetWsi).temporary.ty = .invalid ∧
          (applyVnSemaphoreOp s .resetWsi).active = .perm) ∧
    (∀ f, applyVnFenceOp f .waitFences = f) ∧
    (∀ s, applyVnSemaphoreOp s .waitSemaphores = s) := by
  refine ⟨⟨rfl, rfl, ?_⟩, ?_, ?_, ?_, ?_, ?_, ?_, fun f => rfl, fun s => rfl⟩
  · intro ty v; cases ty <;> rfl
  · intro signaled ops
    have hinit : VnFenceWF (vn_fence_init signaled) := by
      cases signaled <;>
        exact ⟨rfl, by simp [vn_fence_init, VnFence.payload], Or.inl rfl⟩
    rw [applyVnFenceOps]
    induction ops generalizing signaled with
    | nil => exact hinit
    | cons op rest ih =>
      rw [List.foldl_cons]
      have hstep := vn_fence_wf_step (vn_fence_init signaled) op hinit
      clear ih
      generalize (applyVnFenceOp (vn_fence_init signaled) op) = g at hstep
      induction rest generalizing g with
      | nil => exact hstep
      | cons op2 rest2 ih2 =>
        rw [List.foldl_cons]
        exact ih2 _ (vn_fence_wf_step g op2 hstep)
  · intro ty v ops
    have hinit : VnSemaphoreWF (vn_semaphore_init ty v) := by
      cases ty with
      | binary =>
        exact ⟨Or.inr rfl, by simp [vn_semaphore_init, VnSemaphore.payload],
          Or.inl rfl⟩
      | timeline =>
        exact ⟨Or.inl rfl, by simp [vn_semaphore_init, VnSemaphore.payload],
          Or.inl rfl⟩
    rw [applyVnSemaphoreOps]
    generalize (vn_semaphore_init ty v) = g at hinit
    induction ops generalizing g with
    | nil => exact hinit
    | cons op rest ih =>
      rw [List.foldl_cons]
      exact ih _ (vn_semaphore_wf_step g op hinit)
  · intro f op hne
    cases op with
    | signalWsi => exact Or.inr (Or.inl rfl)
    | reset => exact absurd rfl hne
    | waitFences => exact Or.inl rfl
    | importFd toTemp ok v =>
      by_cases hok : ok = false
      · subst hok; exact Or.inl (by simp [applyVnFenceOp, vn_fence_import])
      · have hoktrue : ok = true := by
          cases ok
          · exact absurd rfl hok
          · rfl
        subst hoktrue
        cases toTemp with
        | true => exact Or.inr (Or.inr ⟨v, rfl⟩)
        | false => exact Or.inl (by simp [applyVnFenceOp, vn_fence_import])
    | exportFd syncFile ok =>
      left
      by_cases hok : ok = false
      · simp [applyVnFenceOp, vn_GetFenceFdKHR_state, hok]
      · cases syncFile with
        | true =>
          exfalso
          apply hne
          simp [applyVnFenceOp, vn_GetFenceFdKHR_state, hok, vn_fence_reset,
            vn_sync_payload_release]
        | false => simp [applyVnFenceOp, vn_GetFenceFdKHR_state, hok]
  · intro s op hne
    cases op with
    | signalWsi => exact Or.inr (Or.inl rfl)
    | resetWsi => exact absurd rfl hne
    | waitSemaphores => exact Or.inl rfl
    | signalTimeline v =>
      left
      cases hact : s.active <;>
        simp [applyVnSemaphoreOp, vn_SignalSemaphore_state, hact]
    | importFd toTemp ok v =>
      by_cases hok : ok = false
      · subst hok; exact Or.inl (by simp [applyVnSemaphoreOp, vn_semaphore_import])
      · have hoktrue : ok = true := by
          cases ok
          · exact absurd rfl hok
          · rfl
        subst hoktrue
        cases toTemp with
        | true => exact Or.inr (Or.inr ⟨v, rfl⟩)
        | false => exact Or.inl (by simp [applyVnSemaphoreOp, vn_semaphore_import])
    | exportFd syncFile ok =>
      left
      by_cases hok : ok = false
      · simp [applyVnSemaphoreOp, vn_GetSemaphoreFdKHR_state, hok]
      · cases syncFile with
        | true =>
          exfalso
          apply hne
          simp [applyVnSemaphoreOp, vn_GetSemaphoreFdKHR_state, hok,
            vn_sync_payload_release]
        | false => simp [applyVnSemaphoreOp, vn_GetSemaphoreFdKHR_state, hok]
  · intro f; exact ⟨rfl, rfl⟩
  · intro s; exact ⟨rfl, rfl⟩

/-- Witness for the amended C4 at concrete inputs: the invariant holds for a
signaled fence after a WSI signal followed by a reset, and after a temporary
fd-import the became-non-invalid disjunction is realized by that operation. -/
theorem vn_sync_payload_slots_spec_witness :
    VnFenceWF (applyVnFenceOps (vn_fence_init true)
      [.signalWsi, .reset]) ∧
    ((applyVnFenceOp (vn_fence_init false) (.importFd true true 1)).temporary.ty =
        (vn_fence_init false).temporary.ty ∨
      VnFenceOp.importFd true true 1 = .signalWsi ∨
      (∃ v, VnFenceOp.importFd true true 1 = .importFd true true v)) :=
  ⟨vn_sync_payload_slots_spec.2.1 true [.signalWsi, .reset],
   vn_sync_payload_slots_spec.2.2.2.1 (vn_fence_init false)
     (.importFd true true 1) (by decide)⟩

/-! ## `vn_WaitForFences` (vn_device.c:3714-3780)

Fences are classified by their active payload: `SYNC` payloads go into the
renderer wait list (target value 1), `WSI_SIGNALED` ones count as already
signaled; other payload types hit `unreachable()` (modelled as `none`).
The renderer's wait primitive is only invoked when there is at least one
`SYNC` fence and (`waitAll` or no fence was already signaled). -/

/-- `vn_WaitForFences`: returns the `VkResult` and whether
`vn_renderer_wait` was invoked.  `allocOk` models the `vk_alloc` of the
sync arrays when more than 8 fences are passed; `rendererResult` is the
renderer's answer when its wait primitive is invoked with the given
timeout. -/
def vn_WaitForFences (fences : List VnFence) (waitAll : Bool) (timeout : Nat)
    (allocOk : Bool) (rendererResult : VkResult) : Option (VkResult × Bool) :=
  if 8 < fences.length ∧ allocOk = false then
    some (.errorOutOfHostMemory, false)
  else if fences.all (fun f =>
      f.payload.ty == .sync || f.payload.ty == .wsiSignaled) then
    let wait_count := fences.countP (fun f => f.payload.ty == .sync)
    let signaled_count := fences.countP (fun f => f.payload.ty == .wsiSignaled)
    if 0 < wait_count ∧ (waitAll = true ∨ signaled_count = 0) then
      some (rendererResult, true)
    else
      some (.success, false)
  else
    none

/-- Claim C8: with `waitAll = false` and at least one fence whose active
payload is `WSI_SIGNALED`, `vn_WaitForFences` returns `VK_SUCCESS` without
invoking the renderer's wait primitive — for every timeout (including 0)
and every renderer answer, regardless of the other fences' payload values.
(All payloads must be `SYNC` or `WSI_SIGNALED`, otherwise the code is
`unreachable()`; the temporary arrays must be allocatable when more than 8
fences are passed.) -/
theorem vn_WaitForFences_wait_any_wsi (fences : List VnFence) (timeout : Nat)
    (allocOk : Bool) (rendererResult : VkResult)
    (hty : ∀ f ∈ fences, f.payload.ty = .sync ∨ f.payload.ty = .wsiSignaled)
    (hwsi : ∃ f ∈ fences, f.payload.ty = .wsiSignaled)
    (halloc : fences.length ≤ 8 ∨ allocOk = true) :
    vn_WaitForFences fences false timeout allocOk rendererResult =
      some (.success, false) := by
  unfold vn_WaitForFences
  have hnoalloc : ¬(8 < fences.length ∧ allocOk = false) := by
    rcases halloc with h | h
    · intro hc; omega
    · intro hc; rw [h] at hc; exact absurd hc.2 (by simp)
  rw [if_neg hnoalloc]
  have hall : fences.all (fun f =>
      f.payload.ty == .sync || f.payload.ty == .wsiSignaled) = true := by
    rw [List.all_eq_true]
    intro f hf
    rcases hty f hf with h | h <;> simp [h]
  rw [if_pos hall]
  have hsig : 0 < fences.countP (fun f => f.payload.ty == .wsiSignaled) := by
    rw [List.countP_pos]
    obtain ⟨f, hf, hty⟩ := hwsi
    exact ⟨f, hf, by simp [hty]⟩
  have hcond : ¬(0 < fences.countP (fun f => f.payload.ty == .sync) ∧
      (false = true ∨ fences.countP (fun f => f.payload.ty == .wsiSignaled) = 0)) := by
    intro hc
    rcases hc.2 with h | h
    · exact absurd h (by simp)
    · omega
  rw [if_neg hcond]

/-- Witness for C8: one WSI-signaled fence and one unsignaled `SYNC` fence,
`waitAll = false`, timeout 0, renderer would report device-lost — the call
still succeeds immediately without touching the renderer. -/
theorem vn_WaitForFences_wait_any_wsi_witness :
    vn_WaitForFences
      [{ permanent := ⟨.sync, 0, 1⟩, temporary := ⟨.wsiSignaled, 1, 0⟩, active := .temp },
       { permanent := ⟨.sync, 2, 0⟩, temporary := ⟨.invalid, 3, 0⟩, active := .perm }]
      false 0 false .errorDeviceLost = some (.success, false) :=
  vn_WaitForFences_wait_any_wsi
    [{ permanent := ⟨.sync, 0, 1⟩, temporary := ⟨.wsiSignaled, 1, 0⟩, active := .temp },
     { permanent := ⟨.sync, 2, 0⟩, temporary := ⟨.invalid, 3, 0⟩, active := .perm }]
    0 false .errorDeviceLost (by decide) (by decide) (by decide)

/-! ## `vn_GetFenceFdKHR` (vn_device.c:3817-3838) -/

/-- `vn_GetFenceFdKHR`: export the active payload's renderer sync; on
export failure return `VK_ERROR_TOO_MANY_OBJECTS` with the fence unchanged;
on success with the sync-file handle type, reset the fence
(`vn_ResetFences(device, 1, &fence)`); an opaque export leaves the fence
unchanged. -/
def vn_GetFenceFdKHR (f : VnFence) (syncFile exportOk : Bool) :
    VkResult × VnFence :=
  if exportOk = false then (.errorTooManyObjects, f)
  else if syncFile then (.success, vn_fence_reset f)
  else (.success, f)

/-- Claim C9: a successful `vn_GetFenceFdKHR` with handle type `SYNC_FD`
resets the exported fence: temporary payload released to `INVALID`, the
permanent renderer sync reset to unsignaled, the permanent slot active; a
successful export with an opaque handle type leaves the fence's payload
state unchanged. -/
theorem vn_GetFenceFdKHR_spec (f : VnFence) (syncFile : Bool)
    (hok : (vn_GetFenceFdKHR f syncFile true).1 = .success) :
    (syncFile = true →
      (vn_GetFenceFdKHR f syncFile true).2.temporary.ty = .invalid ∧
      (vn_GetFenceFdKHR f syncFile true).2.permanent.val = 0 ∧
      (vn_GetFenceFdKHR f syncFile true).2.active = .perm) ∧
    (syncFile = false → (vn_GetFenceFdKHR f syncFile true).2 = f) := by
  cases syncFile with
  | true =>
    refine ⟨fun _ => ?_, fun h => absurd h (by simp)⟩
    simp [vn_GetFenceFdKHR, vn_fence_reset, vn_sync_payload_release]
  | false =>
    refine ⟨fun h => absurd h (by simp), fun _ => ?_⟩
    simp [vn_GetFenceFdKHR]

/-- Witness for C9: exporting a WSI-signaled fence as a sync file resets it;
an opaque export of the same fence leaves it untouched. -/
theorem vn_GetFenceFdKHR_spec_witness :
    (vn_GetFenceFdKHR
      { permanent := ⟨.sync, 0, 1⟩, temporary := ⟨.wsiSignaled, 1, 0⟩, active := .temp }
      true true).2.temporary.ty = .invalid ∧
    (vn_GetFenceFdKHR
      { permanent := ⟨.sync, 0, 1⟩, temporary := ⟨.wsiSignaled, 1, 0⟩, active := .temp }
      false true).2 =
      { permanent := ⟨.sync, 0, 1⟩, temporary := ⟨.wsiSignaled, 1, 0⟩, active := .temp } :=
  ⟨(vn_GetFenceFdKHR_spec
      { permanent := ⟨.sync, 0, 1⟩, temporary := ⟨.wsiSignaled, 1, 0⟩, active := .temp }
      true (by decide)).1 rfl |>.1,
   (vn_GetFenceFdKHR_spec
      { permanent := ⟨.sync, 0, 1⟩, temporary := ⟨.wsiSignaled, 1, 0⟩, active := .temp }
      false (by decide)).2 rfl⟩

/-! ## Ring submission (`vn_instance_ring_submit_locked`, vn_device.c:242-456)

The command-stream encoder and the ring itself live in `vn_cs.h` /
`vn_ring.c`, which are not part of the sampled sources; their contracts are
modelled from the spec (sections 4.1-4.3): an encoder is a list of committed
buffers, `submit` appends bytes after the tail and reports whether the
renderer must be notified, and each allocation step can fail.  The control
flow of `vn_instance_ring_submit_locked` and its helpers is taken from the
source. -/

/-- Modelled from the spec: a committed command-stream encoder buffer (a
chunk with a backing BO id, offset and committed byte length) —
`struct vn_cs_encoder_buffer`. -/
structure VnCsEncoderBuffer where
  bo : Nat
  offset : Nat
  committed_size : Nat
deriving DecidableEq, Repr

/-- Modelled from the spec: a command-stream encoder is an ordered sequence
of committed buffers plus the `indirect` delivery flag. -/
structure VnCsEncoder where
  buffers : List VnCsEncoderBuffer
  indirect : Bool
deriving DecidableEq, Repr

/-- Modelled from the spec: `vn_cs_encoder_get_len` — the total committed
length of the stream. -/
def vn_cs_encoder_get_len (cs : VnCsEncoder) : Nat :=
  (cs.buffers.map (fun b => b.committed_size)).sum

/-- Modelled from the spec: `vn_cs_encoder_is_empty` — no committed bytes. -/
def vn_cs_encoder_is_empty (cs : VnCsEncoder) : Bool :=
  vn_cs_encoder_get_len cs == 0

/-- Outcome oracle for the fallible steps of one ring submission:
`descAllocOk` is the `malloc` of the command-stream descriptor array (only
consulted when more than the 8 local descriptors are needed),
`execFitsLocal`/`execAllocOk` describe the `vkExecuteCommandStreamsMESA`
encoding buffer (stack-sized scratch or `malloc`), `ringSubmitAllocOk` is
`vn_ring_get_submit`, `uploadReserveOk` is `vn_cs_encoder_reserve` on the
upload stream, and `notifyNeeded` is the flag returned by the
(spec-modelled) `vn_ring_submit` saying the renderer was idle and must be
notified. -/
structure VnRingOracle where
  descAllocOk : Bool
  execFitsLocal : Bool
  execAllocOk : Bool
  ringSubmitAllocOk : Bool
  uploadReserveOk : Bool
  notifyNeeded : Bool
deriving DecidableEq, Repr

/-- Modelled from the spec: byte size of the encoded
`vkExecuteCommandStreamsMESA` call for the given descriptor count (the
exact wire size is immaterial to the claims). -/
def vn_sizeof_vkExecuteCommandStreamsMESA (descCount : Nat) : Nat :=
  16 + 28 * descCount

/-- `sizeof(submit->local_cs_data)` — 64 `uint32_t`, i.e. 256 bytes. -/
def vn_local_cs_data_size : Nat := 256

/-- `vn_instance_submission_can_direct`: the stream fits the inline scratch
area. -/
def vn_instance_submission_can_direct (cs : VnCsEncoder) : Bool :=
  vn_cs_encoder_get_len cs ≤ vn_local_cs_data_size

/-- `vn_instance_submission_direct_cs`: bytes come straight from the
encoder's buffer(s); the resulting size is the total committed length. -/
def vn_instance_submission_direct_cs (cs : VnCsEncoder) : Nat :=
  vn_cs_encoder_get_len cs

/-- `vn_instance_submission_indirect_cs`: build the descriptor array (heap
allocation when more than 8 buffers) naming each buffer with a nonzero
committed size, then encode `vkExecuteCommandStreamsMESA` (heap allocation
when the encoding exceeds the scratch area).  `none` on allocation
failure. -/
def vn_instance_submission_indirect_cs (cs : VnCsEncoder) (o : VnRingOracle) :
    Option Nat :=
  if 8 < cs.buffers.length ∧ o.descAllocOk = false then none
  else if o.execFitsLocal = false ∧ o.execAllocOk = false then none
  else some (vn_sizeof_vkExecuteCommandStreamsMESA
    (cs.buffers.countP (fun b => b.committed_size != 0)))

/-- `vn_instance_submission_get_ring_submit`: number of BO references the
submission acquires (each encoder buffer when indirect, plus the extra
reply BO when given). -/
def vn_instance_submission_bo_count (cs : VnCsEncoder) (extraBo direct : Bool) : Nat :=
  (if direct then 0 else cs.buffers.length) + (if extraBo then 1 else 0)

/-- `vn_instance_submission_prepare`: build the cs bytes (direct or
indirect), then obtain the ring-submit structure and acquire the BO
references; on any allocation failure nothing is retained and `none` is
returned (`VK_ERROR_OUT_OF_HOST_MEMORY` at the caller). -/
def vn_instance_submission_prepare (cs : VnCsEncoder) (extraBo direct : Bool)
    (o : VnRingOracle) : Option (Nat × Nat) :=
  match if direct then some (vn_instance_submission_direct_cs cs)
        else vn_instance_submission_indirect_cs cs o with
  | none => none
  | some sz =>
    if o.ringSubmitAllocOk = false then none
    else some (sz, vn_instance_submission_bo_count cs extraBo direct)

/-- Modelled from the spec: the ring channel state — the list of appended
submissions (by byte size), the submission seqno, and how many explicit
renderer notifications were sent. -/
structure VnRingState where
  entries : List Nat
  seqno : Nat
  notifies : Nat
deriving DecidableEq, Repr

/-- The instance-side state touched by the submission manager: the ring,
the count of outstanding BO references acquired for ring submissions, the
reply stream, the bytes sitting in the upload stream, the dropped-command
counter and the ring mutex. -/
structure VnInstanceState where
  ring : VnRingState
  refs : Nat
  reply : VnReplyState
  uploadUsed : Nat
  command_dropped : Nat
  mutexLocked : Bool
deriving DecidableEq, Repr

/-- `vn_instance_ring_cs_upload_locked`: reset the upload stream, reserve
space for the stream bytes (fallible), copy and commit them, and wait for
the roundtrip tied to the upload buffer.  Produces an indirect single-buffer
encoder over the upload BO. -/
def vn_instance_ring_cs_upload_locked (st : VnInstanceState) (cs : VnCsEncoder)
    (o : VnRingOracle) : Option VnCsEncoder × VnInstanceState :=
  if o.uploadReserveOk = false then (none, { st with uploadUsed := 0 })
  else
    (some { buffers := [⟨100, 0, vn_cs_encoder_get_len cs⟩], indirect := true },
     { st with uploadUsed := vn_cs_encoder_get_len cs })

/-- The tail of `vn_instance_ring_submit_locked` after the optional upload:
prepare the submission, then perform the ring write (spec-modelled
`vn_ring_submit`: append after the tail, bump the seqno, notify the
renderer when it was idle) and retain the acquired BO references. -/
def vn_ring_submit_prepared (st : VnInstanceState) (cs : VnCsEncoder)
    (extraBo direct : Bool) (o : VnRingOracle) :
    VkResult × VnInstanceState × Option Nat :=
  match vn_instance_submission_prepare cs extraBo direct o with
  | none => (.errorOutOfHostMemory, st, none)
  | some (sz, nrefs) =>
    (.success,
     { st with
       ring :=
         { entries := st.ring.entries ++ [sz]
           seqno := st.ring.seqno + 1
           notifies := st.ring.notifies + (if o.notifyNeeded then 1 else 0) }
       refs := st.refs + nrefs },
     some st.ring.seqno)

/-- `vn_instance_ring_submit_locked` (vn_device.c:409-449): choose direct
delivery when the stream fits the scratch area; otherwise, if the stream is
not already indirect, move it into the upload stream first (fallible);
prepare and perform the ring write. -/
def vn_instance_ring_submit_locked (st : VnInstanceState) (cs : VnCsEncoder)
    (extraBo : Bool) (o : VnRingOracle) :
    VkResult × VnInstanceState × Option Nat :=
  let direct := vn_instance_submission_can_direct cs
  if direct = false ∧ cs.indirect = false then
    match vn_instance_ring_cs_upload_locked st cs o with
    | (none, st1) => (.errorOutOfHostMemory, st1, none)
    | (some cs1, st1) => vn_ring_submit_prepared st1 cs1 extraBo direct o
  else
    vn_ring_submit_prepared st cs extraBo direct o

/-- Claim C6: if any allocation made while preparing a ring submission
fails — descriptor array, `vkExecuteCommandStreamsMESA` encoding buffer,
ring-submit structure, or reserving upload space — the call returns
`VK_ERROR_OUT_OF_HOST_MEMORY` and no ring mutation has occurred: nothing
is appended, the tail/seqno is unchanged, no notify is sent, no BO
references are retained, and no ring seqno is produced.  In particular a
`vn_ring_get_submit` failure always yields that error. -/
theorem vn_instance_ring_submit_locked_oom (st : VnInstanceState)
    (cs : VnCsEncoder) (extraBo : Bool) (o : VnRingOracle)
    (res : VkResult) (st2 : VnInstanceState) (sq : Option Nat)
    (hrun : vn_instance_ring_submit_locked st cs extraBo o = (res, st2, sq)) :
    (res ≠ .success →
      res = .errorOutOfHostMemory ∧ st2.ring = st.ring ∧ st2.refs = st.refs ∧
      st2.reply = st.reply ∧ sq = none) ∧
    (o.ringSubmitAllocOk = false → res = .errorOutOfHostMemory) := by
  unfold vn_instance_ring_submit_locked at hrun
  by_cases hup : vn_instance_submission_can_direct cs = false ∧ cs.indirect = false
  · rw [if_pos hup] at hrun
    unfold vn_instance_ring_cs_upload_locked at hrun
    by_cases hres : o.uploadReserveOk = false
    · rw [if_pos hres] at hrun
      simp only [Prod.mk.injEq] at hrun
      obtain ⟨h1, h2, h3⟩ := hrun
      subst h1; subst h2; subst h3
      exact ⟨fun _ => ⟨rfl, rfl, rfl, rfl, rfl⟩, fun _ => rfl⟩
    · rw [if_neg hres] at hrun
      simp only at hrun
      unfold vn_ring_submit_prepared vn_instance_submission_prepare at hrun
      rw [hup.1] at hrun
      simp only [Bool.false_eq_true, if_false] at hrun
      unfold vn_instance_submission_indirect_cs at hrun
      rw [if_neg (by simp)] at hrun
      by_cases hea : o.execFitsLocal = false ∧ o.execAllocOk = false
      · rw [if_pos hea] at hrun
        simp only [Prod.mk.injEq] at hrun
        obtain ⟨h1, h2, h3⟩ := hrun
        subst h1; subst h2; subst h3
        exact ⟨fun _ => ⟨rfl, rfl, rfl, rfl, rfl⟩, fun _ => rfl⟩
      · rw [if_neg hea] at hrun
        simp only at hrun
        by_cases hrs : o.ringSubmitAllocOk = false
        · rw [if_pos hrs] at hrun
          simp only [Prod.mk.injEq] at hrun
          obtain ⟨h1, h2, h3⟩ := hrun
          subst h1; subst h2; subst h3
          exact ⟨fun _ => ⟨rfl, rfl, rfl, rfl, rfl⟩, fun _ => rfl⟩
        · rw [if_neg hrs] at hrun
          simp only [Prod.mk.injEq] at hrun
          obtain ⟨h1, h2, h3⟩ := hrun
          subst h1; subst h2; subst h3
          exact ⟨fun hne => absurd rfl hne, fun hc => absurd hc hrs⟩
  · rw [if_neg hup] at hrun
    unfold vn_ring_submit_prepared vn_instance_submission_prepare at hrun
    by_cases hdir : vn_instance_submission_can_direct cs = true
    · rw [if_pos hdir] at hrun
      simp only at hrun
      by_cases hrs : o.ringSubmitAllocOk = false
      · rw [if_pos hrs] at hrun
        simp only [Prod.mk.injEq] at hrun
        obtain ⟨h1, h2, h3⟩ := hrun
        subst h1; subst h2; subst h3
        exact ⟨fun _ => ⟨rfl, rfl, rfl, rfl, rfl⟩, fun _ => rfl⟩
      · rw [if_neg hrs] at hrun
        simp only [Prod.mk.injEq] at hrun
        obtain ⟨h1, h2, h3⟩ := hrun
        subst h1; subst h2; subst h3
        exact ⟨fun hne => absurd rfl hne, fun hc => absurd hc hrs⟩
    · have hdirf : vn_instance_submission_can_direct cs = false := by
        simpa using hdir
      rw [hdirf] at hrun
      simp only [Bool.false_eq_true, if_false] at hrun
      unfold vn_instance_submission_indirect_cs at hrun
      by_cases hda : 8 < cs.buffers.length ∧ o.descAllocOk = false
      · rw [if_pos hda] at hrun
        simp only [Prod.mk.injEq] at hrun
        obtain ⟨h1, h2, h3⟩ := hrun
        subst h1; subst h2; subst h3
        exact ⟨fun _ => ⟨rfl, rfl, rfl, rfl, rfl⟩, fun _ => rfl⟩
      · rw [if_neg hda] at hrun
        by_cases hea : o.execFitsLocal = false ∧ o.execAllocOk = false
        · rw [if_pos hea] at hrun
          simp only [Prod.mk.injEq] at hrun
          obtain ⟨h1, h2, h3⟩ := hrun
          subst h1; subst h2; subst h3
          exact ⟨fun _ => ⟨rfl, rfl, rfl, rfl, rfl⟩, fun _ => rfl⟩
        · rw [if_neg hea] at hrun
          simp only at hrun
          by_cases hrs : o.ringSubmitAllocOk = false
          · rw [if_pos hrs] at hrun
            simp only [Prod.mk.injEq] at hrun
            obtain ⟨h1, h2, h3⟩ := hrun
            subst h1; subst h2; subst h3
            exact ⟨fun _ => ⟨rfl, rfl, rfl, rfl, rfl⟩, fun _ => rfl⟩
          · rw [if_neg hrs] at hrun
            simp only [Prod.mk.injEq] at hrun
            obtain ⟨h1, h2, h3⟩ := hrun
            subst h1; subst h2; subst h3
            exact ⟨fun hne => absurd rfl hne, fun hc => absurd hc hrs⟩

/-- Witness for C6: a direct one-buffer submission with a failing
`vn_ring_get_submit` returns out-of-memory with the instance state
untouched. -/
theorem vn_instance_ring_submit_locked_oom_witness :
    (VkResult.errorOutOfHostMemory ≠ VkResult.success →
      VkResult.errorOutOfHostMemory = VkResult.errorOutOfHostMemory ∧
      (⟨⟨[], 0, 0⟩, 0, ⟨none, 0, 0⟩, 0, 0, false⟩ : VnInstanceState).ring = ⟨[], 0, 0⟩ ∧
      (⟨⟨[], 0, 0⟩, 0, ⟨none, 0, 0⟩, 0, 0, false⟩ : VnInstanceState).refs = 0 ∧
      (⟨⟨[], 0, 0⟩, 0, ⟨none, 0, 0⟩, 0, 0, false⟩ : VnInstanceState).reply = ⟨none, 0, 0⟩ ∧
      (none : Option Nat) = none) ∧
    (false = false → VkResult.errorOutOfHostMemory = VkResult.errorOutOfHostMemory) := by
  have h := vn_instance_ring_submit_locked_oom
    ⟨⟨[], 0, 0⟩, 0, ⟨none, 0, 0⟩, 0, 0, false⟩
    ⟨[⟨5, 0, 16⟩], false⟩ false ⟨true, true, true, false, true, false⟩
    .errorOutOfHostMemory ⟨⟨[], 0, 0⟩, 0, ⟨none, 0, 0⟩, 0, 0, false⟩ none (by decide)
  exact ⟨fun hne => h.1 hne, fun _ => rfl⟩

/-! ## `vn_instance_get_reply_bo_locked` and `vn_instance_submit_command`
(vn_device.c:492-567) -/

/-- The stack-encoded `vkSetReplyCommandStreamMESA` control call (16
`uint32_t` of scratch; small enough for direct delivery). -/
def vn_set_reply_command_stream_cs : VnCsEncoder :=
  { buffers := [⟨0, 0, 24⟩], indirect := false }

/-- The stack-encoded `vkSeekReplyCommandStreamMESA` control call (8
`uint32_t` of scratch; small enough for direct delivery). -/
def vn_seek_reply_command_stream_cs : VnCsEncoder :=
  { buffers := [⟨0, 0, 12⟩], indirect := false }

/-- Tail of `vn_instance_get_reply_bo_locked` once capacity is ensured:
submit the seek control call recording the next reply offset, return a
pointer (modelled as the BO id and offset) at the current `used` cursor,
advance `used`, and hand out a reference on the reply BO. -/
def vn_reply_seek_and_advance (st : VnInstanceState) (size : Nat)
    (o : VnRingOracle) : Option (Nat × Nat) × VnInstanceState :=
  let st1 := (vn_instance_ring_submit_locked st vn_seek_reply_command_stream_cs
    false o).2.1
  (some (st1.reply.bo.getD 0, st1.reply.used),
   { st1 with
     reply := { st1.reply with used := st1.reply.used + size }
     refs := st1.refs + 1 })

/-- `vn_instance_get_reply_bo_locked`: when the request does not fit the
current reply BO, grow it (on failure return `none` with nothing else
done), announce the new reply stream to the renderer (roundtrip followed by
the set-reply control call, whose result is ignored), then in all cases
emit the seek control call and hand out the reply region. -/
def vn_instance_get_reply_bo_locked (st : VnInstanceState) (size : Nat)
    (ro : VnReplyOracle) (o : VnRingOracle) :
    Option (Nat × Nat) × VnInstanceState :=
  if st.reply.size < st.reply.used + size then
    let g := vn_instance_grow_reply_bo_locked st.reply size ro
    if g.1 = false then (none, { st with reply := g.2 })
    else
      let st1 := { st with reply := g.2 }
      let st2 := (vn_instance_ring_submit_locked st1
        vn_set_reply_command_stream_cs false o).2.1
      vn_reply_seek_and_advance st2 size o
  else
    vn_reply_seek_and_advance st size o

/-- `vn_instance_submit_command` (vn_device.c:531-567): under the ring
mutex, drop the command when the encoder is empty or (when a reply is
expected) the reply BO cannot be acquired — bumping `command_dropped` —
otherwise submit the command with the reply BO as the extra reference.
Returns the new instance state and the acquired reply BO (if any). -/
def vn_instance_submit_command (st0 : VnInstanceState) (cmd : VnCsEncoder)
    (replySize : Nat) (ro : VnReplyOracle) (o : VnRingOracle) :
    VnInstanceState × Option Nat :=
  let st := { st0 with mutexLocked := true }
  if vn_cs_encoder_is_empty cmd then
    ({ st with command_dropped := st.command_dropped + 1, mutexLocked := false },
     none)
  else if 0 < replySize then
    match vn_instance_get_reply_bo_locked st replySize ro o with
    | (none, st1) =>
      ({ st1 with command_dropped := st1.command_dropped + 1, mutexLocked := false },
       none)
    | (some (boId, _), st1) =>
      let r := vn_instance_ring_submit_locked st1 cmd true o
      ({ r.2.1 with mutexLocked := false }, some boId)
  else
    let r := vn_instance_ring_submit_locked st cmd false o
    ({ r.2.1 with mutexLocked := false }, none)

theorem vn_grow_reply_bo_false_unchanged (rst : VnReplyState) (size : Nat)
    (ro : VnReplyOracle)
    (h : (vn_instance_grow_reply_bo_locked rst size ro).1 = false) :
    (vn_instance_grow_reply_bo_locked rst size ro).2 = rst := by
  unfold vn_instance_grow_reply_bo_locked at h ⊢
  split
  · rfl
  · split
    · rfl
    · split
      · rfl
      · rename_i bo_size heq h1 h2
        rw [heq] at h
        simp only at h
        rw [if_neg h1, if_neg h2] at h
        exact absurd h (by simp)

theorem vn_instance_get_reply_bo_locked_none (st : VnInstanceState)
    (size : Nat) (ro : VnReplyOracle) (o : VnRingOracle)
    (h : (vn_instance_get_reply_bo_locked st size ro o).1 = none) :
    (vn_instance_get_reply_bo_locked st size ro o).2 = st := by
  unfold vn_instance_get_reply_bo_locked at h ⊢
  by_cases hcap : st.reply.size < st.reply.used + size
  · rw [if_pos hcap] at h ⊢
    by_cases hg : (vn_instance_grow_reply_bo_locked st.reply size ro).1 = false
    · rw [if_pos hg]
      have := vn_grow_reply_bo_false_unchanged st.reply size ro hg
      simp only [this]
    · rw [if_neg hg] at h
      exact absurd h (by simp [vn_reply_seek_and_advance])
  · rw [if_neg hcap] at h
    exact absurd h (by simp [vn_reply_seek_and_advance])

/-- Claim C10: when `vn_instance_submit_command` is given an empty command
encoder, or acquiring the reply BO fails, the command is silently dropped:
no reply BO is returned, the ring is not mutated (no entry appended, seqno
and notify count unchanged, no BO reference acquired), the reply stream is
unchanged, the ring mutex ends up released, and `command_dropped` grows by
exactly one. -/
theorem vn_instance_submit_command_dropped (st0 : VnInstanceState)
    (cmd : VnCsEncoder) (replySize : Nat) (ro : VnReplyOracle)
    (o : VnRingOracle)
    (hfail : vn_cs_encoder_is_empty cmd = true ∨
      (0 < replySize ∧
        (vn_instance_get_reply_bo_locked { st0 with mutexLocked := true }
          replySize ro o).1 = none)) :
    (vn_instance_submit_command st0 cmd replySize ro o).2 = none ∧
    (vn_instance_submit_command st0 cmd replySize ro o).1.ring = st0.ring ∧
    (vn_instance_submit_command st0 cmd replySize ro o).1.refs = st0.refs ∧
    (vn_instance_submit_command st0 cmd replySize ro o).1.reply = st0.reply ∧
    (vn_instance_submit_command st0 cmd replySize ro o).1.command_dropped =
      st0.command_dropped + 1 ∧
    (vn_instance_submit_command st0 cmd replySize ro o).1.mutexLocked = false := by
  unfold vn_instance_submit_command
  rcases hfail with hempty | ⟨hrs, hnone⟩
  · rw [if_pos hempty]
    exact ⟨rfl, rfl, rfl, rfl, rfl, rfl⟩
  · by_cases hempty : vn_cs_encoder_is_empty cmd = true
    · rw [if_pos hempty]
      exact ⟨rfl, rfl, rfl, rfl, rfl, rfl⟩
    · rw [if_neg hempty, if_pos hrs]
      have hst := vn_instance_get_reply_bo_locked_none
        { st0 with mutexLocked := true } replySize ro o hnone
      rcases hget : vn_instance_get_reply_bo_locked
          { st0 with mutexLocked := true } replySize ro o with ⟨fst, snd⟩
      rw [hget] at hnone hst
      simp only at hnone hst
      subst hnone
      subst hst
      exact ⟨rfl, rfl, rfl, rfl, rfl, rfl⟩

/-- Witness for C10: an empty command encoder on a fresh instance is
dropped with `command_dropped` going from 0 to 1. -/
theorem vn_instance_submit_command_dropped_witness :
    (vn_instance_submit_command ⟨⟨[], 0, 0⟩, 0, ⟨none, 0, 0⟩, 0, 0, false⟩
      ⟨[], false⟩ 0 ⟨true, true, 3⟩ ⟨true, true, true, true, true, false⟩).2 = none ∧
    (vn_instance_submit_command ⟨⟨[], 0, 0⟩, 0, ⟨none, 0, 0⟩, 0, 0, false⟩
      ⟨[], false⟩ 0 ⟨true, true, 3⟩
      ⟨true, true, true, true, true, false⟩).1.command_dropped = 0 + 1 := by
  have h := vn_instance_submit_command_dropped
    ⟨⟨[], 0, 0⟩, 0, ⟨none, 0, 0⟩, 0, 0, false⟩ ⟨[], false⟩ 0 ⟨true, true, 3⟩
    ⟨true, true, true, true, true, false⟩ (Or.inl (by decide))
  exact ⟨h.1, h.2.2.2.2.1⟩

/-! ## Queue submission batching (vn_device.c:2946-3509)

Batches carry wait/signal semaphore handle lists plus the
`VkTimelineSemaphoreSubmitInfo` signal values; semaphore handles are `Nat`
indices into a store.  `vn_QueueSubmit` / `vn_QueueBindSparse` produce a
trace of renderer-visible events: asynchronous/synchronous forwarding of
batches, ring drains, and client-side sync updates
(`vn_queue_submit_syncs` = one renderer submit of sync-only batches
followed by a roundtrip). -/

/-- One `VkSubmitInfo` / `VkBindSparseInfo` batch: wait semaphores, signal
semaphores, and the timeline signal values chained via
`VkTimelineSemaphoreSubmitInfo`. -/
structure VnSubmitBatch where
  waitSems : List Nat
  signalSems : List Nat
  timelineValues : List Nat
deriving DecidableEq, Repr, Inhabited

/-- Which entry point the batches came from (`submit->batch_type`). -/
inductive VnBatchType where
  | submitInfo
  | bindSparseInfo
deriving DecidableEq, Repr

/-- The payload used to *classify* a signal semaphore in
`vn_queue_submission_count_semaphores`: in the `VkSubmitInfo` flavor a
`WSI_SIGNALED` active payload is replaced by the permanent one ("it must be
one of the waited semaphores and will be reset"); the bind-sparse flavor
classifies the active payload directly. -/
def vn_signal_counted_payload (bt : VnBatchType) (sem : VnSemaphore) : VnSyncPayload :=
  match bt with
  | .submitInfo => if sem.payload.ty = .wsiSignaled then sem.permanent else sem.payload
  | .bindSparseInfo => sem.payload

/-- The semaphore counters of `struct vn_queue_submission`. -/
structure VnSubmitCounts where
  wait_semaphore_count : Nat
  wait_wsi_count : Nat
  signal_semaphore_count : Nat
  signal_device_only_count : Nat
  signal_timeline_count : Nat
  sync_count : Nat
deriving DecidableEq, Repr

/-- `vn_queue_submission_count_semaphores` (vn_device.c:2982-3060): count
wait semaphores, WSI-signaled wait semaphores, signal semaphores,
device-only signal semaphores and timeline signal semaphores over all
batches; `sync_count` is the number of client-side sync updates —
non-device-only signal semaphores plus one for the fence when present. -/
def vn_queue_submission_count_semaphores (store : Nat → VnSemaphore)
    (bt : VnBatchType) (batches : List VnSubmitBatch) (fencePresent : Bool) :
    VnSubmitCounts :=
  let ws := (batches.map (fun b => b.waitSems.length)).sum
  let ww := (batches.map (fun b =>
    b.waitSems.countP (fun s => (store s).payload.ty == .wsiSignaled))).sum
  let ss := (batches.map (fun b => b.signalSems.length)).sum
  let sd := (batches.map (fun b =>
    b.signalSems.countP
      (fun s => (vn_signal_counted_payload bt (store s)).ty == .deviceOnly))).sum
  let stl := (batches.map (fun b =>
    b.signalSems.countP (fun s =>
      (vn_signal_counted_payload bt (store s)).ty != .deviceOnly &&
      (store s).semType == .timeline))).sum
  { wait_semaphore_count := ws
    wait_wsi_count := ww
    signal_semaphore_count := ss
    signal_device_only_count := sd
    signal_timeline_count := stl
    sync_count := ss - sd + (if fencePresent then 1 else 0) }

/-- `vn_queue_submission_setup_batch_syncs` (vn_device.c:3186-3240): the
client-side sync updates one batch needs — for every non-device-only signal
semaphore, the active payload's renderer sync paired with the timeline
value (timeline semaphores) or 1 (binary semaphores). -/
def vn_queue_submission_setup_batch_syncs (store : Nat → VnSemaphore)
    (b : VnSubmitBatch) : List (Nat × Nat) :=
  b.signalSems.enum.filterMap (fun p =>
    let sem := store p.2
    if sem.payload.ty = .deviceOnly then none
    else some (sem.payload.syncId,
      if sem.semType = .timeline then b.timelineValues.getD p.1 0 else 1))

/-- `vn_queue_submission_setup_fence_sync` (vn_device.c:3242-3257): the
fence contributes one sync update, its active payload signaled to 1. -/
def vn_queue_submission_setup_fence_sync (fence : Option VnFence) :
    List (Nat × Nat) :=
  match fence with
  | none => []
  | some f => [(f.payload.syncId, 1)]

/-- The per-batch loop of `vn_queue_submission_setup_batches`
(vn_device.c:3284-3298): filter each batch's wait list (when any WSI wait
exists), then compute the batch's sync updates (when any non-device-only
signal exists), threading the semaphore store.  Returns the final store,
the batches as sent to the renderer and the per-batch sync updates. -/
def vn_queue_submission_setup_batches_aux (doFilter doSyncs : Bool)
    (store : Nat → VnSemaphore) :
    List VnSubmitBatch →
      (Nat → VnSemaphore) × List VnSubmitBatch × List (List (Nat × Nat))
  | [] => (store, [], [])
  | b :: rest =>
    let fr := if doFilter then
        vn_queue_submission_filter_batch_wsi_semaphores store b.waitSems
      else (b.waitSems, store)
    let b2 := { b with waitSems := fr.1 }
    let syncs := if doSyncs then
        vn_queue_submission_setup_batch_syncs fr.2 b2
      else []
    let r := vn_queue_submission_setup_batches_aux doFilter doSyncs fr.2 rest
    (r.1, b2 :: r.2.1, syncs :: r.2.2)

/-- `vn_queue_submission_setup_batches` (vn_device.c:3259-3303): a no-op
when no temporary storage was needed (no WSI waits and no sync updates);
otherwise run the per-batch loop. -/
def vn_queue_submission_setup_batches (counts : VnSubmitCounts)
    (store : Nat → VnSemaphore) (batches : List VnSubmitBatch) :
    (Nat → VnSemaphore) × List VnSubmitBatch × List (List (Nat × Nat)) :=
  if counts.wait_wsi_count = 0 ∧ counts.sync_count = 0 then
    (store, batches, batches.map (fun _ => []))
  else
    vn_queue_submission_setup_batches_aux
      (decide (0 < counts.wait_wsi_count))
      (decide (counts.signal_device_only_count < counts.signal_semaphore_count))
      store batches

/-- Renderer-visible events of a queue submission. -/
inductive VnEvent where
  | asyncSubmit (bt : VnBatchType) (batch : VnSubmitBatch) (withFence : Bool)
  | syncSubmit (bt : VnBatchType) (batches : List VnSubmitBatch) (withFence : Bool)
  | rendererSubmitSyncs (syncs : List (Nat × Nat))
  | ringWaitAll
  | roundtrip
deriving DecidableEq, Repr

/-- `vn_queue_submit_syncs` (vn_device.c:3363-3384): submit the given sync
updates to the renderer as one sync-only batch, then roundtrip. -/
def vn_queue_submit_syncs (syncs : List (Nat × Nat)) : List VnEvent :=
  [.rendererSubmitSyncs syncs, .roundtrip]

/-- The `for (i = 0; i < batch_count - 1; i++)` loop of the
timeline-splitting path of `vn_QueueSubmit` / `vn_QueueBindSparse`: each
non-last batch is sent asynchronously with a null fence, the caller drains
the ring (`vn_instance_ring_wait`), and that batch's client-side sync
updates are posted; `sync_base` accumulates the per-batch sync counts. -/
def vn_queue_submit_timeline_loop (bt : VnBatchType)
    (batches : List VnSubmitBatch) (perBatch : List (List (Nat × Nat))) :
    Nat → List VnEvent × Nat
  | 0 => ([], 0)
  | i + 1 =>
    let r := vn_queue_submit_timeline_loop bt batches perBatch i
    (r.1 ++ [.asyncSubmit bt (batches.getD i default) false, .ringWaitAll] ++
       vn_queue_submit_syncs (perBatch.getD i []),
     r.2 + (perBatch.getD i []).length)

/-- Result of a modelled queue submission: the returned `VkResult`, the
event trace, and the updated semaphore store. -/
structure VnQueueSubmitOut where
  result : VkResult
  events : List VnEvent
  store : Nat → VnSemaphore

/-- `vn_QueueSubmit` / `vn_QueueBindSparse` (vn_device.c:3386-3509), common
shape: prepare (count, allocate temporary storage — fallible — and set up
batches), then either the timeline-splitting path (async per-batch
submissions with ring drains and interleaved sync updates, a final
synchronous call carrying the fence, and the remaining updates on success)
or the single synchronous call followed by all updates.  `callResult` is
the renderer's answer to the synchronous call. -/
def vn_queue_submit_model (bt : VnBatchType) (store : Nat → VnSemaphore)
    (batches : List VnSubmitBatch) (fence : Option VnFence) (allocOk : Bool)
    (callResult : VkResult) : VnQueueSubmitOut :=
  let counts := vn_queue_submission_count_semaphores store bt batches fence.isSome
  if (0 < counts.wait_wsi_count ∨ 0 < counts.sync_count) ∧ allocOk = false then
    ⟨.errorOutOfHostMemory, [], store⟩
  else
    let setup := vn_queue_submission_setup_batches counts store batches
    let flat := setup.2.2.flatten ++ vn_queue_submission_setup_fence_sync fence
    if 0 < counts.signal_timeline_count then
      let lp := vn_queue_submit_timeline_loop bt setup.2.1 setup.2.2
        (batches.length - 1)
      let head := lp.1 ++
        [.syncSubmit bt [setup.2.1.getD (batches.length - 1) default] fence.isSome]
      if callResult = .success then
        ⟨.success,
         head ++ (if lp.2 < counts.sync_count then
             vn_queue_submit_syncs (flat.drop lp.2)
           else []),
         setup.1⟩
      else ⟨callResult, head, setup.1⟩
    else
      if callResult = .success then
        ⟨.success,
         [.syncSubmit bt setup.2.1 fence.isSome] ++
           (if 0 < counts.sync_count then vn_queue_submit_syncs flat else []),
         setup.1⟩
      else ⟨callResult, [.syncSubmit bt setup.2.1 fence.isSome], setup.1⟩

/-- `vn_QueueSubmit` (vn_device.c:3386-3446). -/
def vn_QueueSubmit (store : Nat → VnSemaphore) (batches : List VnSubmitBatch)
    (fence : Option VnFence) (allocOk : Bool) (callResult : VkResult) :
    VnQueueSubmitOut :=
  vn_queue_submit_model .submitInfo store batches fence allocOk callResult

/-- `vn_QueueBindSparse` (vn_device.c:3448-3509). -/
def vn_QueueBindSparse (store : Nat → VnSemaphore) (batches : List VnSubmitBatch)
    (fence : Option VnFence) (allocOk : Bool) (callResult : VkResult) :
    VnQueueSubmitOut :=
  vn_queue_submit_model .bindSparseInfo store batches fence allocOk callResult

/-- Claim C7: `vn_QueueSubmit` with zero batches and a fence computes
`sync_count = 1`, forwards the empty submission synchronously, and after
acknowledgement performs exactly one client-side sync update — the fence's
renderer sync signaled to value 1; with zero batches and a null fence it
performs no client-side sync update at all. -/
theorem vn_QueueSubmit_zero_batches (store : Nat → VnSemaphore) (f : VnFence) :
    (vn_queue_submission_count_semaphores store .submitInfo [] true).sync_count = 1 ∧
    vn_QueueSubmit store [] (some f) true .success =
      ⟨.success,
       [.syncSubmit .submitInfo [] true,
        .rendererSubmitSyncs [(f.payload.syncId, 1)], .roundtrip],
       store⟩ ∧
    (vn_queue_submission_count_semaphores store .submitInfo [] false).sync_count = 0 ∧
    vn_QueueSubmit store [] none true .success =
      ⟨.success, [.syncSubmit .submitInfo [] false], store⟩ := by
  refine ⟨rfl, ?_, rfl, ?_⟩ <;> rfl

theorem vn_queue_submit_timeline_loop_eq (bt : VnBatchType)
    (bs : List VnSubmitBatch) (pb : List (List (Nat × Nat))) (k : Nat) :
    vn_queue_submit_timeline_loop bt bs pb k =
      ((List.range k).flatMap (fun i =>
        [.asyncSubmit bt (bs.getD i default) false, .ringWaitAll,
         .rendererSubmitSyncs (pb.getD i []), .roundtrip]),
       ((pb.take k).map List.length).sum) := by
  induction k with
  | zero => simp [vn_queue_submit_timeline_loop]
  | succ k ih =>
    rw [vn_queue_submit_timeline_loop, ih]
    simp only
    have hsum : ((pb.take (k + 1)).map List.length).sum =
        ((pb.take k).map List.length).sum + (pb.getD k []).length := by
      rw [List.take_succ, List.map_append, List.sum_append]
      congr 1
      cases hk : pb[k]? with
      | none => simp [List.getD, hk]
      | some x => simp [List.getD, hk]
    rw [hsum]
    congr 1
    rw [List.range_succ, List.flatMap_append]
    simp [vn_queue_submit_syncs]

theorem vn_queue_submission_setup_batches_aux_lengths (doF doS : Bool)
    (store : Nat → VnSemaphore) (bs : List VnSubmitBatch) :
    (vn_queue_submission_setup_batches_aux doF doS store bs).2.1.length = bs.length ∧
    (vn_queue_submission_setup_batches_aux doF doS store bs).2.2.length = bs.length := by
  induction bs generalizing store with
  | nil => simp [vn_queue_submission_setup_batches_aux]
  | cons b rest ih =>
    rw [vn_queue_submission_setup_batches_aux]
    simp only [List.length_cons]
    exact ⟨congrArg Nat.succ (ih _).1, congrArg Nat.succ (ih _).2⟩

theorem vn_queue_submission_setup_batches_lengths (counts : VnSubmitCounts)
    (store : Nat → VnSemaphore) (bs : List VnSubmitBatch) :
    (vn_queue_submission_setup_batches counts store bs).2.1.length = bs.length ∧
    (vn_queue_submission_setup_batches counts store bs).2.2.length = bs.length := by
  unfold vn_queue_submission_setup_batches
  split
  · simp
  · exact vn_queue_submission_setup_batches_aux_lengths _ _ _ _

theorem list_join_append_drop_left {α : Type} (A : List (List α)) (x : List α)
    (fs : List α) :
    (((A ++ [x]).flatten ++ fs)).drop ((A.map List.length).sum) = x ++ fs := by
  rw [List.flatten_append, List.append_assoc]
  have hlen : (A.map List.length).sum = A.flatten.length := (List.length_flatten A).symm
  rw [hlen, List.drop_left]
  simp

theorem list_eq_take_append_last {α : Type} (l : List α) (d : α) (n : Nat)
    (hn : l.length = n) (hpos : 0 < n) :
    l = l.take (n - 1) ++ [l.getD (n - 1) d] := by
  have hlt : n - 1 < l.length := by omega
  have hd : l.drop (n - 1) = [l.getD (n - 1) d] := by
    rw [List.drop_eq_getElem_cons hlt]
    have hnil : l.drop (n - 1 + 1) = [] := by
      rw [List.drop_eq_nil_iff]
      omega
    rw [hnil]
    congr 1
    rw [List.getD_eq_getElem?_getD, List.getElem?_eq_getElem hlt]
    rfl
  conv_lhs => rw [← List.take_append_drop (n - 1) l, hd]

/-- Claim C1: whenever a `vn_QueueSubmit` / `vn_QueueBindSparse` call has at
least one timeline signal semaphore needing a client-side update
(`signal_timeline_count > 0`) and its temporary storage allocates, the
batches are not sent as one unit: each of the first `batch_count - 1`
batches is sent alone, asynchronously, with a null fence, followed by a
ring-wide drain (`vn_instance_ring_wait`) *before* that batch's client-side
sync updates are posted; the last batch is sent with the synchronous call
carrying the caller's fence; and the remaining client-side updates — the
last batch's and the fence's — are posted (as one renderer submit plus
roundtrip) only when that synchronous call returns success.  The hypothesis
`hflat` states that the flattened per-batch sync updates plus the fence
update match the computed `sync_count`, which holds for valid API usage
(every WSI-signaled signal semaphore is also waited upon). -/
theorem vn_queue_submit_timeline_split (bt : VnBatchType)
    (store : Nat → VnSemaphore) (batches : List VnSubmitBatch)
    (fence : Option VnFence) (callResult : VkResult)
    (C : VnSubmitCounts)
    (S : (Nat → VnSemaphore) × List VnSubmitBatch × List (List (Nat × Nat)))
    (hC : C = vn_queue_submission_count_semaphores store bt batches fence.isSome)
    (hS : S = vn_queue_submission_setup_batches C store batches)
    (hT : 0 < C.signal_timeline_count)
    (hflat : (S.2.2.flatten ++ vn_queue_submission_setup_fence_sync fence).length
      = C.sync_count) :
    (vn_queue_submit_model bt store batches fence true callResult).result = callResult ∧
    (vn_queue_submit_model bt store batches fence true callResult).store = S.1 ∧
    (vn_queue_submit_model bt store batches fence true callResult).events =
      ((List.range (batches.length - 1)).flatMap (fun i =>
        [.asyncSubmit bt (S.2.1.getD i default) false, .ringWaitAll,
         .rendererSubmitSyncs (S.2.2.getD i []), .roundtrip])) ++
      [.syncSubmit bt [S.2.1.getD (batches.length - 1) default] fence.isSome] ++
      (if callResult = .success ∧
          S.2.2.getD (batches.length - 1) [] ++
            vn_queue_submission_setup_fence_sync fence ≠ [] then
        [.rendererSubmitSyncs (S.2.2.getD (batches.length - 1) [] ++
            vn_queue_submission_setup_fence_sync fence), .roundtrip]
      else []) := by
  have hne : batches ≠ [] := by
    intro h
    rw [h] at hC
    rw [hC] at hT
    simp [vn_queue_submission_count_semaphores] at hT
  have hn : 0 < batches.length := List.length_pos.mpr hne
  have hpb : S.2.2.length = batches.length := by
    rw [hS]; exact (vn_queue_submission_setup_batches_lengths _ _ _).2
  have hsplit0 := list_eq_take_append_last S.2.2 ([] : List (Nat × Nat))
    batches.length hpb hn
  have hdrop : (S.2.2.flatten ++ vn_queue_submission_setup_fence_sync fence).drop
      (((S.2.2.take (batches.length - 1)).map List.length).sum) =
      S.2.2.getD (batches.length - 1) [] ++
        vn_queue_submission_setup_fence_sync fence := by
    have hA : (S.2.2.take (batches.length - 1)).length = batches.length - 1 := by
      rw [List.length_take]
      omega
    conv_lhs =>
      rw [hsplit0]
    rw [List.take_left' hA]
    exact list_join_append_drop_left _ _ _
  have hsum_all : (S.2.2.map List.length).sum =
      ((S.2.2.take (batches.length - 1)).map List.length).sum +
        (S.2.2.getD (batches.length - 1) []).length := by
    conv_lhs => rw [hsplit0]
    simp
  have hflatten_len : S.2.2.flatten.length = (S.2.2.map List.length).sum :=
    List.length_flatten _
  have hflat_len : S.2.2.flatten.length +
      (vn_queue_submission_setup_fence_sync fence).length = C.sync_count := by
    rw [← List.length_append]
    exact hflat
  have hcond : (((S.2.2.take (batches.length - 1)).map List.length).sum <
      C.sync_count) ↔
      S.2.2.getD (batches.length - 1) [] ++
        vn_queue_submission_setup_fence_sync fence ≠ [] := by
    rw [← List.length_pos]
    rw [List.length_append]
    omega
  simp only [vn_queue_submit_model]
  rw [← hC, ← hS]
  rw [if_neg (fun h => by simpa using h.2)]
  rw [if_pos hT]
  rw [vn_queue_submit_timeline_loop_eq]
  simp only
  by_cases hcr : callResult = .success
  · subst hcr
    rw [if_pos rfl]
    refine ⟨rfl, rfl, ?_⟩
    simp only
    by_cases hxfs : S.2.2.getD (batches.length - 1) [] ++
        vn_queue_submission_setup_fence_sync fence = []
    · rw [if_neg (fun h => (hcond.mp h) hxfs)]
      rw [if_neg (fun h => h.2 hxfs)]
    · rw [if_pos (hcond.mpr hxfs), if_pos ⟨trivial, hxfs⟩]
      rw [hdrop]
      rfl
  · rw [if_neg hcr]
    refine ⟨rfl, rfl, ?_⟩
    simp only
    rw [if_neg (fun h => hcr h.1)]
    rw [List.append_nil]

/-- Witness for C1: the spec scenario — three batches where only the second
signals a timeline semaphore (to value 5) — with a fence, renderer
acknowledging: the call succeeds along the timeline-splitting path. -/
theorem vn_queue_submit_timeline_split_witness :
    (vn_queue_submit_model .submitInfo
      (fun _ => { permanent := ⟨.sync, 10, 0⟩, temporary := ⟨.invalid, 11, 0⟩,
                  active := .perm, semType := .timeline })
      [⟨[], [], []⟩, ⟨[], [0], [5]⟩, ⟨[], [], []⟩]
      (some { permanent := ⟨.sync, 20, 0⟩, temporary := ⟨.invalid, 21, 0⟩,
              active := .perm })
      true .success).result = .success :=
  (vn_queue_submit_timeline_split .submitInfo
    (fun _ => { permanent := ⟨.sync, 10, 0⟩, temporary := ⟨.invalid, 11, 0⟩,
                active := .perm, semType := .timeline })
    [⟨[], [], []⟩, ⟨[], [0], [5]⟩, ⟨[], [], []⟩]
    (some { permanent := ⟨.sync, 20, 0⟩, temporary := ⟨.invalid, 21, 0⟩,
            active := .perm })
    .success _ _ rfl rfl (by decide) (by decide)).1
